import Mathlib

/-! # Storefront state synchronisation

A shallow embedding of the state-synchronisation layer of the storefront client:

* `frontend/src/services/api.js`: the axios instance with its request and response
  handlers, and the `authAPI` / `cartAPI` request builders;
* `frontend/src/store/index.js`: the session store (`useAuthStore`) and the cart store
  (`useCartStore`).

Conventions of the embedding.

* A JavaScript value that is a string, `null` or `undefined` is an `Option String`
  (`none` stands for both `null` and `undefined`); numbers are `Int`.
* The browser is explicit state: `localStorage` and `window.location.href`.
* An asynchronous store operation is a function of the browser, the store state, its
  arguments and the outcome of each remote call it may await. It returns the browser and
  the store state when its promise settles, the requests it put on the wire (in order),
  and the value its promise resolves to (`none` for `undefined`).
* `v || d` on a number or an array that may be missing is `Option.getD`: zero is the only
  falsy integer and every array is truthy.
* The zustand `persist` middleware writes `partialize state` under the store's name after
  every `set`; the persisted slice of a state is therefore `partialize` of that state.
-/

namespace Storefront

/-! ## JavaScript values -/

/-- The string a value holds when it is truthy: `null`, `undefined` and the empty string are
falsy. -/
def truthyStr : Option String → Option String
  | some s => if s = "" then none else some s
  | none => none

/-- JavaScript `a || b` on string-or-absent values. -/
def jsOr (a b : Option String) : Option String :=
  match truthyStr a with
  | some s => some s
  | none => b

/-- JavaScript `a || fallback` where the fallback is a string literal. -/
def orElse (a : Option String) (fallback : String) : String :=
  match truthyStr a with
  | some s => s
  | none => fallback

/-- JavaScript `String(v)`, the coercion `localStorage.setItem` applies to its value. -/
def jsString : Option String → String
  | some s => s
  | none => "undefined"

/-- The value passed as `removeProduct`: callers pass booleans or numbers, or nothing. -/
inductive JsFlag where
  | undefined
  | bool (b : Bool)
  | num (n : Int)
deriving DecidableEq, Repr

/-! ## Browser state -/

/-- The entries of `localStorage`: keys and string values. -/
abbrev Storage := List (String × String)

/-- `localStorage.getItem(key)`: the stored string, or `null`. -/
def Storage.getItem : Storage → String → Option String
  | [], _ => none
  | (k, v) :: rest, key => if k = key then some v else Storage.getItem rest key

/-- `localStorage.removeItem(key)`. -/
def Storage.removeItem (ls : Storage) (key : String) : Storage :=
  ls.filter (fun kv => decide (kv.1 ≠ key))

/-- `localStorage.setItem(key, value)`. -/
def Storage.setItem (ls : Storage) (key value : String) : Storage :=
  (key, value) :: Storage.removeItem ls key

/-- The part of the browser the code reads and writes. -/
structure Browser where
  localStorage : Storage
  href : String
deriving DecidableEq, Repr

/-! ## Requests, responses, errors -/

/-- Login form fields. -/
structure Credentials where
  email : String
  password : String
deriving DecidableEq, Repr

/-- The entries appended to a `FormData`. -/
abbrev FormData := List (String × String)

/-- A shipping or billing address of a profile. -/
structure Address where
  street : Option String
  city : Option String
  pincode : Option Int
deriving DecidableEq, Repr

/-- The profile document the backend returns for a user. -/
structure Profile where
  fname : Option String
  lname : Option String
  email : Option String
  phone : Option String
  profileImage : Option String
  shipping : Option Address
  billing : Option Address
deriving DecidableEq, Repr

/-- The `data` of a login response; either field may be missing. -/
structure LoginData where
  userId : Option String
  token : Option String
deriving DecidableEq, Repr

/-- One line of a cart. -/
structure LineItem where
  productId : String
  quantity : Int
deriving DecidableEq, Repr

/-- The cart document of a response; the store reads `_id`, `items`, `totalPrice` and
`totalItems`, any of which may be missing. -/
structure CartData where
  _id : Option String
  items : Option (List LineItem)
  totalPrice : Option Int
  totalItems : Option Int
deriving DecidableEq, Repr

/-- HTTP verbs used by the client. -/
inductive Method where
  | GET
  | POST
  | PUT
  | DELETE
deriving DecidableEq, Repr

/-- Request bodies the client sends. -/
inductive Body where
  | empty
  | credentials (c : Credentials)
  | form (f : FormData)
  | addItem (productId : String) (quantity : Int) (cartId : Option String)
  | updateItem (cartId : String) (productId : String) (removeProduct : JsFlag)
deriving DecidableEq, Repr

/-- An axios request configuration. -/
structure Request where
  method : Method
  url : String
  data : Body
  headers : List (String × String)
deriving DecidableEq, Repr

/-- The response envelope `{status, data?, message?}` every endpoint answers with. -/
structure Envelope (α : Type) where
  status : Bool
  data : Option α
  message : Option String
deriving DecidableEq, Repr

/-- The `response` of an axios error: its HTTP status and `data?.message`. -/
structure ErrorResponse where
  status : Nat
  message : Option String
deriving DecidableEq, Repr

/-- A thrown value as the `catch` blocks read it: `error.response` and `error.message`. -/
structure JsError where
  response : Option ErrorResponse
  message : String
deriving DecidableEq, Repr

/-- What the transport gives back for one request: a body, or a rejection. -/
inductive Outcome (α : Type) where
  | resolved (body : Envelope α)
  | rejected (error : JsError)
deriving DecidableEq, Repr

/-- `new Error(message)`: no `response`; an undefined message becomes the empty string. -/
def newError (message : Option String) : JsError :=
  { response := none, message := message.getD "" }

/-- The `TypeError` raised by reading a property of `undefined` or `null`. The wording of its
message depends on the engine; a fixed text stands for it. -/
def typeError : JsError :=
  { response := none, message := "Cannot read properties of undefined" }

/-- `error.response?.data?.message`. -/
def JsError.dataMessage (e : JsError) : Option String :=
  e.response.bind (fun r => r.message)

/-- `error.response?.data?.message || error.message || fallback`. -/
def errorText (e : JsError) (fallback : String) : String :=
  orElse (e.dataMessage) (orElse (some e.message) fallback)

/-! ## `services/api.js` -/

/-- The request handler of the axios instance: adds the bearer token of `localStorage`. -/
def requestInterceptor (config : Request) (ls : Storage) : Request :=
  match truthyStr (ls.getItem "token") with
  | some token =>
    { config with
      headers := ("Authorization", "Bearer " ++ token) ::
        config.headers.filter (fun kv => decide (kv.1 ≠ "Authorization")) }
  | none => config

/-- The error handler of the response interceptor: on a 401 it removes the stored token and
user id and navigates to the login view; it always rejects with the error it was given.
Returns the browser afterwards and the error of the rejection. -/
def responseInterceptor (error : JsError) (w : Browser) : Browser × JsError :=
  if (error.response.map (fun r => r.status)) = some 401 then
    ({ localStorage := (w.localStorage.removeItem "token").removeItem "userId",
       href := "/login" }, error)
  else
    (w, error)

/-- One call through the axios instance: the request handler decorates the configuration,
the transport answers with `o`, and on a rejection the response error handler runs. Returns
the browser afterwards and the request put on the wire. -/
def apiCall {α : Type} (w : Browser) (config : Request) (o : Outcome α) : Browser × Request :=
  match o with
  | .resolved _ => (w, requestInterceptor config w.localStorage)
  | .rejected e => ((responseInterceptor e w).1, requestInterceptor config w.localStorage)

/-- Default headers of the axios instance. -/
def jsonHeaders : List (String × String) := [("Content-Type", "application/json")]

/-- Headers of the multipart calls. -/
def multipartHeaders : List (String × String) := [("Content-Type", "multipart/form-data")]

/-- Request of `authAPI.register`. -/
def authAPI.register (formData : FormData) : Request :=
  { method := .POST, url := "/register", data := .form formData, headers := multipartHeaders }

/-- Request of `authAPI.login`. -/
def authAPI.login (credentials : Credentials) : Request :=
  { method := .POST, url := "/login", data := .credentials credentials, headers := jsonHeaders }

/-- Request of `authAPI.getProfile`. -/
def authAPI.getProfile (userId : String) : Request :=
  { method := .GET, url := "/user/" ++ userId ++ "/profile", data := .empty,
    headers := jsonHeaders }

/-- Request of `authAPI.updateProfile`. -/
def authAPI.updateProfile (userId : String) (formData : FormData) : Request :=
  { method := .PUT, url := "/user/" ++ userId ++ "/profile", data := .form formData,
    headers := multipartHeaders }

/-- Request of `cartAPI.get`. -/
def cartAPI.get (userId : String) : Request :=
  { method := .GET, url := "/users/" ++ userId ++ "/cart", data := .empty,
    headers := jsonHeaders }

/-- Request of `cartAPI.addItem`. -/
def cartAPI.addItem (userId : String) (data : Body) : Request :=
  { method := .POST, url := "/users/" ++ userId ++ "/cart", data := data,
    headers := jsonHeaders }

/-- Request of `cartAPI.updateItem`. -/
def cartAPI.updateItem (userId : String) (data : Body) : Request :=
  { method := .PUT, url := "/users/" ++ userId ++ "/cart", data := data,
    headers := jsonHeaders }

/-- Request of `cartAPI.clear`. -/
def cartAPI.clear (userId : String) : Request :=
  { method := .DELETE, url := "/users/" ++ userId ++ "/cart", data := .empty,
    headers := jsonHeaders }

/-! ## Store operations: common shapes -/

/-- The object a store operation resolves to: `{success, data?, error?}`. -/
structure Result where
  success : Bool
  data : Option Profile
  error : Option String
deriving DecidableEq, Repr

/-- `{ success: true }`. -/
def Result.ok : Result := { success := true, data := none, error := none }

/-- `{ success: false, error: message }`. -/
def Result.fail (message : String) : Result :=
  { success := false, data := none, error := some message }

/-- What has happened when the promise of a store operation settles. -/
structure Step (σ : Type) where
  browser : Browser
  state : σ
  requests : List Request
  result : Option Result
deriving DecidableEq, Repr

/-! ## `store/index.js`: the session store -/

/-- State of `useAuthStore`. -/
structure AuthState where
  user : Option Profile
  token : Option String
  userId : Option String
  isAuthenticated : Bool
  isLoading : Bool
  error : Option String
deriving DecidableEq, Repr

/-- The persisted slice of the session store. -/
structure AuthSlice where
  token : Option String
  userId : Option String
  isAuthenticated : Bool
deriving DecidableEq, Repr

namespace useAuthStore

/-- The state the store is created with. -/
def initial : AuthState :=
  { user := none, token := none, userId := none, isAuthenticated := false,
    isLoading := false, error := none }

/-- The `partialize` option of the session store. -/
def partialize (state : AuthState) : AuthSlice :=
  { token := state.token, userId := state.userId, isAuthenticated := state.isAuthenticated }

/-- The `fetchProfile` action. -/
def fetchProfile (w : Browser) (s : AuthState) (o : Outcome Profile) : Step AuthState :=
  match truthyStr (jsOr s.userId (w.localStorage.getItem "userId")) with
  | none => { browser := w, state := s, requests := [], result := none }
  | some userId =>
    let s1 := { s with isLoading := true }
    let call := apiCall w (authAPI.getProfile userId) o
    match o with
    | .resolved response =>
      if response.status then
        { browser := call.1, state := { s1 with user := response.data, isLoading := false },
          requests := [call.2], result := none }
      else
        { browser := call.1, state := s1, requests := [call.2], result := none }
    | .rejected _ =>
      { browser := call.1, state := { s1 with isLoading := false }, requests := [call.2],
        result := none }

/-- The `catch` block shared by `login`, `register` and `updateProfile`. -/
def caught (w : Browser) (s : AuthState) (requests : List Request) (error : JsError)
    (fallback : String) : Step AuthState :=
  let message := errorText error fallback
  { browser := w, state := { s with error := some message, isLoading := false },
    requests := requests, result := some (Result.fail message) }

/-- The `login` action; `o` answers the login call and `oProfile` the profile fetch chained
after a successful login. -/
def login (w : Browser) (s : AuthState) (credentials : Credentials) (o : Outcome LoginData)
    (oProfile : Outcome Profile) : Step AuthState :=
  let s1 := { s with isLoading := true, error := none }
  let call := apiCall w (authAPI.login credentials) o
  match o with
  | .rejected error => caught call.1 s1 [call.2] error "Login failed"
  | .resolved response =>
    if response.status then
      match response.data with
      | none => caught call.1 s1 [call.2] typeError "Login failed"
      | some data =>
        let w2 : Browser :=
          { call.1 with
            localStorage := ((call.1).localStorage.setItem "token" (jsString data.token)).setItem
              "userId" (jsString data.userId) }
        let s2 := { s1 with token := data.token, userId := data.userId, isAuthenticated := true,
                            isLoading := false }
        let p := fetchProfile w2 s2 oProfile
        { browser := p.browser, state := p.state, requests := call.2 :: p.requests,
          result := some Result.ok }
    else
      caught call.1 s1 [call.2] (newError response.message) "Login failed"

/-- The `register` action. -/
def register (w : Browser) (s : AuthState) (formData : FormData) (o : Outcome Profile) :
    Step AuthState :=
  let s1 := { s with isLoading := true, error := none }
  let call := apiCall w (authAPI.register formData) o
  match o with
  | .rejected error => caught call.1 s1 [call.2] error "Registration failed"
  | .resolved response =>
    if response.status then
      { browser := call.1, state := { s1 with isLoading := false }, requests := [call.2],
        result := some { success := true, data := response.data, error := none } }
    else
      caught call.1 s1 [call.2] (newError response.message) "Registration failed"

/-- The `updateProfile` action. -/
def updateProfile (w : Browser) (s : AuthState) (formData : FormData) (o : Outcome Profile) :
    Step AuthState :=
  match truthyStr (jsOr s.userId (w.localStorage.getItem "userId")) with
  | none =>
    { browser := w, state := s, requests := [], result := some (Result.fail "Not authenticated") }
  | some userId =>
    let s1 := { s with isLoading := true, error := none }
    let call := apiCall w (authAPI.updateProfile userId formData) o
    match o with
    | .rejected error => caught call.1 s1 [call.2] error "Update failed"
    | .resolved response =>
      if response.status then
        { browser := call.1, state := { s1 with user := response.data, isLoading := false },
          requests := [call.2],
          result := some { success := true, data := response.data, error := none } }
      else
        caught call.1 s1 [call.2] (newError response.message) "Update failed"

/-- The `logout` action. -/
def logout (w : Browser) (s : AuthState) : Step AuthState :=
  { browser := { w with localStorage := (w.localStorage.removeItem "token").removeItem "userId" },
    state := { s with user := none, token := none, userId := none, isAuthenticated := false,
                      error := none },
    requests := [], result := none }

/-- The `clearError` action. -/
def clearError (w : Browser) (s : AuthState) : Step AuthState :=
  { browser := w, state := { s with error := none }, requests := [], result := none }

end useAuthStore

/-- One invocation of a session-store operation together with the remote outcomes it meets. -/
inductive AuthAction where
  | login (credentials : Credentials) (o : Outcome LoginData) (oProfile : Outcome Profile)
  | register (formData : FormData) (o : Outcome Profile)
  | fetchProfile (o : Outcome Profile)
  | updateProfile (formData : FormData) (o : Outcome Profile)
  | logout
  | clearError
deriving DecidableEq, Repr

/-- Runs one session-store operation. -/
def AuthAction.run (w : Browser) (s : AuthState) : AuthAction → Step AuthState
  | .login credentials o oProfile => useAuthStore.login w s credentials o oProfile
  | .register formData o => useAuthStore.register w s formData o
  | .fetchProfile o => useAuthStore.fetchProfile w s o
  | .updateProfile formData o => useAuthStore.updateProfile w s formData o
  | .logout => useAuthStore.logout w s
  | .clearError => useAuthStore.clearError w s

/-- Runs session-store operations one after the other; returns the browser and the store. -/
def runAuth (w : Browser) (s : AuthState) : List AuthAction → Browser × AuthState
  | [] => (w, s)
  | a :: rest => runAuth (a.run w s).browser (a.run w s).state rest

/-- A login whose success payload carries a non-empty token and a non-empty user id; every
other action qualifies. -/
def AuthAction.CarriesCredentials : AuthAction → Prop
  | .login _ (.resolved response) _ =>
    response.status = true → ∀ data, response.data = some data →
      (truthyStr data.token).isSome = true ∧ (truthyStr data.userId).isSome = true
  | _ => True

/-- The session invariant of the data model: authenticated exactly when both the token and the
user id are present and non-empty. -/
def AuthState.Consistent (s : AuthState) : Prop :=
  s.isAuthenticated = true ↔
    ((truthyStr s.token).isSome = true ∧ (truthyStr s.userId).isSome = true)

/-! ## `store/index.js`: the cart store -/

/-- State of `useCartStore`. -/
structure CartState where
  cart : Option CartData
  cartId : Option String
  items : List LineItem
  totalPrice : Int
  totalItems : Int
  isLoading : Bool
  error : Option String
deriving DecidableEq, Repr

/-- The persisted slice of the cart store. -/
structure CartSlice where
  cartId : Option String
deriving DecidableEq, Repr

namespace useCartStore

/-- The state the store is created with. -/
def initial : CartState :=
  { cart := none, cartId := none, items := [], totalPrice := 0, totalItems := 0,
    isLoading := false, error := none }

/-- The `partialize` option of the cart store. -/
def partialize (state : CartState) : CartSlice :=
  { cartId := state.cartId }

/-- The `fetchCart` action. -/
def fetchCart (w : Browser) (s : CartState) (o : Outcome CartData) : Step CartState :=
  match truthyStr (w.localStorage.getItem "userId") with
  | none => { browser := w, state := s, requests := [], result := none }
  | some userId =>
    let s1 := { s with isLoading := true, error := none }
    let call := apiCall w (cartAPI.get userId) o
    let caught (error : JsError) : Step CartState :=
      if error.response.map (fun r => r.status) = some 404 then
        { browser := call.1,
          state := { s1 with cart := none, cartId := none, items := [], totalPrice := 0,
                             totalItems := 0, isLoading := false },
          requests := [call.2], result := none }
      else
        { browser := call.1,
          state := { s1 with error := some (orElse error.dataMessage "Failed to fetch cart"),
                             isLoading := false },
          requests := [call.2], result := none }
    match o with
    | .rejected error => caught error
    | .resolved response =>
      if response.status then
        match response.data with
        | none => caught typeError
        | some cart =>
          { browser := call.1,
            state := { s1 with cart := some cart, cartId := cart._id,
                               items := cart.items.getD [], totalPrice := cart.totalPrice.getD 0,
                               totalItems := cart.totalItems.getD 0, isLoading := false },
            requests := [call.2], result := none }
      else
        { browser := call.1, state := s1, requests := [call.2], result := none }

/-- The `catch` block shared by `addItem` and `updateItem`. -/
def caught (w : Browser) (s : CartState) (requests : List Request) (error : JsError)
    (fallback : String) : Step CartState :=
  let message := errorText error fallback
  { browser := w, state := { s with error := some message, isLoading := false },
    requests := requests, result := some (Result.fail message) }

/-- The `addItem` action; an omitted `quantity` defaults to 1. -/
def addItem (w : Browser) (s : CartState) (productId : String) (quantity : Option Int)
    (o : Outcome CartData) : Step CartState :=
  match truthyStr (w.localStorage.getItem "userId") with
  | none =>
    { browser := w, state := s, requests := [],
      result := some (Result.fail "Please login to add items to cart") }
  | some userId =>
    let s1 := { s with isLoading := true, error := none }
    let data := Body.addItem productId (quantity.getD 1) (truthyStr s1.cartId)
    let call := apiCall w (cartAPI.addItem userId data) o
    match o with
    | .rejected error => caught call.1 s1 [call.2] error "Failed to add item"
    | .resolved response =>
      if response.status then
        match response.data with
        | none => caught call.1 s1 [call.2] typeError "Failed to add item"
        | some cart =>
          { browser := call.1,
            state := { s1 with cart := some cart, cartId := cart._id,
                               items := cart.items.getD [], totalPrice := cart.totalPrice.getD 0,
                               totalItems := cart.totalItems.getD 0, isLoading := false },
            requests := [call.2], result := some Result.ok }
      else
        caught call.1 s1 [call.2] (newError response.message) "Failed to add item"

/-- The `updateItem` action. -/
def updateItem (w : Browser) (s : CartState) (productId : String) (removeProduct : JsFlag)
    (o : Outcome CartData) : Step CartState :=
  match truthyStr (w.localStorage.getItem "userId"), truthyStr s.cartId with
  | some userId, some cartId =>
    let s1 := { s with isLoading := true, error := none }
    let call := apiCall w (cartAPI.updateItem userId (.updateItem cartId productId removeProduct)) o
    match o with
    | .rejected error => caught call.1 s1 [call.2] error "Failed to update cart"
    | .resolved response =>
      if response.status then
        match response.data with
        | none => caught call.1 s1 [call.2] typeError "Failed to update cart"
        | some cart =>
          { browser := call.1,
            state := { s1 with cart := some cart, items := cart.items.getD [],
                               totalPrice := cart.totalPrice.getD 0,
                               totalItems := cart.totalItems.getD 0, isLoading := false },
            requests := [call.2], result := some Result.ok }
      else
        caught call.1 s1 [call.2] (newError response.message) "Failed to update cart"
  | _, _ =>
    { browser := w, state := s, requests := [], result := some (Result.fail "Cart not found") }

/-- The `removeItem` action. -/
def removeItem (w : Browser) (s : CartState) (productId : String) (o : Outcome CartData) :
    Step CartState :=
  updateItem w s productId (.num 0) o

/-- The `decreaseQuantity` action. -/
def decreaseQuantity (w : Browser) (s : CartState) (productId : String) (o : Outcome CartData) :
    Step CartState :=
  updateItem w s productId (.num 1) o

/-- The `clearCart` action; the body of a resolved response is not looked at. -/
def clearCart (w : Browser) (s : CartState) (o : Outcome Unit) : Step CartState :=
  match truthyStr (w.localStorage.getItem "userId") with
  | none => { browser := w, state := s, requests := [], result := none }
  | some userId =>
    let s1 := { s with isLoading := true, error := none }
    let call := apiCall w (cartAPI.clear userId) o
    match o with
    | .resolved _ =>
      { browser := call.1,
        state := { s1 with cart := none, items := [], totalPrice := 0, totalItems := 0,
                           isLoading := false },
        requests := [call.2], result := some Result.ok }
    | .rejected error =>
      { browser := call.1,
        state := { s1 with error := some (orElse error.dataMessage "Failed to clear cart"),
                           isLoading := false },
        requests := [call.2],
        result := some { success := false, data := none, error := none } }

/-- The `resetCart` action. -/
def resetCart (w : Browser) (s : CartState) : Step CartState :=
  { browser := w,
    state := { s with cart := none, cartId := none, items := [], totalPrice := 0,
                      totalItems := 0, error := none },
    requests := [], result := none }

/-- The `clearError` action. -/
def clearError (w : Browser) (s : CartState) : Step CartState :=
  { browser := w, state := { s with error := none }, requests := [], result := none }

/-- A response `{status: true, data: cart}`, with or without a message. -/
def success (cart : CartData) (message : Option String) : Outcome CartData :=
  .resolved { status := true, data := some cart, message := message }

/-- One `addItem` call and the successful response it meets. -/
structure AddCall where
  productId : String
  quantity : Option Int
  cart : CartData
  message : Option String
deriving DecidableEq, Repr

/-- Runs `addItem` once per entry, each call answered by `{status: true, data: cart}` with
the cart of that entry; returns the store after the last call. -/
def addItems (w : Browser) (s : CartState) : List AddCall → CartState
  | [] => s
  | call :: rest =>
    addItems (addItem w s call.productId call.quantity (success call.cart call.message)).browser
      (addItem w s call.productId call.quantity (success call.cart call.message)).state rest

/-- The store a cart payload determines: what a successful `addItem` leaves. -/
def snapshot (cart : CartData) : CartState :=
  { cart := some cart, cartId := cart._id, items := cart.items.getD [],
    totalPrice := cart.totalPrice.getD 0, totalItems := cart.totalItems.getD 0,
    isLoading := false, error := none }

end useCartStore

/-! ## In-flight requests and the session guard -/

/-- The part of `fetchProfile` that runs once the awaited call has settled, applied to the
store as it is at that moment: nothing of the store is read again after the `await`. -/
def useAuthStore.fetchProfileSettled (s : AuthState) (o : Outcome Profile) : AuthState :=
  match o with
  | .resolved response =>
    if response.status then { s with user := response.data, isLoading := false } else s
  | .rejected _ => { s with isLoading := false }

/-- While unauthenticated, neither the store nor `localStorage` knows a user id and no
profile is held. -/
def SessionGuard (w : Browser) (s : AuthState) : Prop :=
  s.isAuthenticated = false →
    truthyStr s.userId = none ∧ truthyStr (w.localStorage.getItem "userId") = none ∧
      s.user = none

/-! ## `components/Navbar.jsx` -/

/-- What a handler of the navigation bar leaves behind: browser, both stores, and the
`isMenuOpen` flag of the component. -/
structure NavbarStep where
  browser : Browser
  auth : AuthState
  cart : CartState
  isMenuOpen : Bool
deriving DecidableEq, Repr

/-- The `handleLogout` handler: `logout()`, `resetCart()`, `navigate('/')`, close the menu. -/
def Navbar.handleLogout (w : Browser) (auth : AuthState) (cart : CartState) : NavbarStep :=
  { browser :=
      { (useCartStore.resetCart (useAuthStore.logout w auth).browser cart).browser with
        href := "/" },
    auth := (useAuthStore.logout w auth).state,
    cart := (useCartStore.resetCart (useAuthStore.logout w auth).browser cart).state,
    isMenuOpen := false }

/-! ## Form validation of the pages -/

/-- Characters of `[A-Z]`. -/
def isUpper (c : Char) : Bool := decide (65 ≤ c.toNat) && decide (c.toNat ≤ 90)

/-- Characters of `[a-z]`. -/
def isLower (c : Char) : Bool := decide (97 ≤ c.toNat) && decide (c.toNat ≤ 122)

/-- Characters of `\d`, that is `[0-9]`. -/
def isDigit (c : Char) : Bool := decide (48 ≤ c.toNat) && decide (c.toNat ≤ 57)

/-- Characters of `\s`, which are also the ones `trim()` strips: tab, line feed, vertical tab,
form feed, carriage return, space, U+00A0, U+1680, U+2000 to U+200A, U+2028, U+2029, U+202F,
U+205F, U+3000 and U+FEFF. -/
def isSpace (c : Char) : Bool :=
  (decide (9 ≤ c.toNat) && decide (c.toNat ≤ 13)) || c.toNat == 32 || c.toNat == 160 ||
    c.toNat == 5760 || (decide (8192 ≤ c.toNat) && decide (c.toNat ≤ 8202)) ||
    c.toNat == 8232 || c.toNat == 8233 || c.toNat == 8239 || c.toNat == 8287 ||
    c.toNat == 12288 || c.toNat == 65279

/-- Line terminators, the characters `.` does not match: line feed, carriage return, U+2028
and U+2029. -/
def isLineTerminator (c : Char) : Bool :=
  c.toNat == 10 || c.toNat == 13 || c.toNat == 8232 || c.toNat == 8233

/-- Characters of `[a-zA-Z ,.'-]`: letters, space, comma, full stop, apostrophe, hyphen. -/
def isNameChar (c : Char) : Bool :=
  isUpper c || isLower c || c.toNat == 32 || c.toNat == 44 || c.toNat == 46 ||
    c.toNat == 39 || c.toNat == 45

/-- Characters of `[#?!@$%^&*-]`. -/
def isSpecial (c : Char) : Bool :=
  c.toNat == 35 || c.toNat == 63 || c.toNat == 33 || c.toNat == 64 || c.toNat == 36 ||
    c.toNat == 37 || c.toNat == 94 || c.toNat == 38 || c.toNat == 42 || c.toNat == 45

/-- Characters of `[^\s@]`. -/
def isEmailChar (c : Char) : Bool := !isSpace c && !(c.toNat == 64)

/-- The `length` of a string: its number of UTF-16 code units, which is also what `.`
counts in a regular expression without the `u` flag. -/
def utf16Length (t : List Char) : Nat :=
  (t.map (fun c => if c.toNat < 65536 then 1 else 2)).sum

/-- The test `!s.trim()`: the string is empty once its white space is trimmed. -/
def isBlank (s : String) : Bool := s.toList.all isSpace

/-- The test `/^[a-zA-Z ,.'-]+$/.test(s)`. -/
def nameRegex (s : String) : Bool := !s.toList.isEmpty && s.toList.all isNameChar

/-- The test `/^[^\s@]+@[^\s@]+\.[^\s@]+$/.test(s)`: a non-empty run of `[^\s@]`, an `@`,
then to the end only `[^\s@]` with a full stop that is neither first nor last. -/
def emailRegex (s : String) : Bool :=
  !(s.toList.takeWhile isEmailChar).isEmpty &&
    match s.toList.dropWhile isEmailChar with
    | [] => false
    | c :: domain =>
      c.toNat == 64 && domain.all isEmailChar &&
        (domain.tail.dropLast).any (fun d => d.toNat == 46)

/-- The part `[6789]\d{9}$` of the phone pattern. -/
def phoneCore : List Char → Bool
  | [] => false
  | c :: rest =>
    (decide (54 ≤ c.toNat) && decide (c.toNat ≤ 57)) && rest.length == 9 && rest.all isDigit

/-- The test `/^[0]?[6789]\d{9}$/.test(s)`. -/
def phoneRegex (s : String) : Bool :=
  phoneCore s.toList ||
    match s.toList with
    | [] => false
    | c :: rest => c.toNat == 48 && phoneCore rest

/-- The test `/^[1-9][0-9]{5}$/.test(s)`. -/
def pincodeRegex (s : String) : Bool :=
  match s.toList with
  | [] => false
  | c :: rest =>
    (decide (49 ≤ c.toNat) && decide (c.toNat ≤ 57)) && rest.length == 5 && rest.all isDigit

/-- The test
`/^(?=.*?[A-Z])(?=.*?[a-z])(?=.*?[0-9])(?=.*?[#?!@$%^&*-]).{8,15}$/.test(s)`: the whole
string is 8 to 15 code units without a line terminator, so each lookahead asks for one
character of its class anywhere in the string. -/
def passwordRegex (s : String) : Bool :=
  s.toList.any isUpper && s.toList.any isLower && s.toList.any isDigit &&
    s.toList.any isSpecial && s.toList.all (fun c => !isLineTerminator c) &&
    decide (8 ≤ utf16Length s.toList) && decide (utf16Length s.toList ≤ 15)

/-- One entry of the `newErrors` object when `bad` holds. -/
def errorIf (bad : Bool) (field message : String) : List (String × String) :=
  if bad then [(field, message)] else []

/-- A call of a store operation made by a page. -/
inductive StoreCall where
  | register (formData : FormData)
  | login (credentials : Credentials)
  | updateProfile (formData : FormData)
deriving DecidableEq, Repr

/-- What a submit handler of a page leaves behind: the store calls it made, browser and
session store, the toasts shown, the route navigated to, the `errors` it set, the value given
to `setIsEditing`, and the error it threw, if any. -/
structure PageStep where
  calls : List StoreCall
  step : Step AuthState
  toasts : List (String × String)
  navigate : Option String
  errors : Option (List (String × String))
  isEditing : Option Bool
  threw : Option JsError
deriving DecidableEq, Repr

/-- A handler that returns before any store call. -/
def PageStep.stopped (w : Browser) (s : AuthState) (toasts : List (String × String))
    (errors : Option (List (String × String))) (isEditing : Option Bool)
    (threw : Option JsError) : PageStep :=
  { calls := [], step := { browser := w, state := s, requests := [], result := none },
    toasts := toasts, navigate := none, errors := errors, isEditing := isEditing,
    threw := threw }

/-- The `formData` state of the registration page. -/
structure RegisterForm where
  fname : String
  lname : String
  email : String
  phone : String
  password : String
  confirmPassword : String
  street : String
  city : String
  pincode : String
deriving DecidableEq, Repr

/-- The `validateForm` function of the registration page: the entries of `newErrors`, in the
order they are written; the form is valid when there is none. -/
def RegisterPage.validateForm (formData : RegisterForm) (profileImage : Option String) :
    List (String × String) :=
  (if isBlank formData.fname then [("fname", "First name is required")]
    else errorIf (!nameRegex formData.fname) "fname" "First name is not valid") ++
  (if isBlank formData.lname then [("lname", "Last name is required")]
    else errorIf (!nameRegex formData.lname) "lname" "Last name is not valid") ++
  (if formData.email = "" then [("email", "Email is required")]
    else errorIf (!emailRegex formData.email) "email" "Please enter a valid email") ++
  (if formData.phone = "" then [("phone", "Phone number is required")]
    else errorIf (!phoneRegex formData.phone) "phone"
      "Please enter a valid Indian mobile number") ++
  (if formData.password = "" then [("password", "Password is required")]
    else errorIf (!passwordRegex formData.password) "password"
      "Password must be 8-15 characters with uppercase, lowercase, number, and special character") ++
  errorIf (decide (formData.password ≠ formData.confirmPassword)) "confirmPassword"
    "Passwords do not match" ++
  errorIf (isBlank formData.street) "street" "Street address is required" ++
  (if isBlank formData.city then [("city", "City is required")]
    else errorIf (!nameRegex formData.city) "city" "City name is not valid") ++
  (if formData.pincode = "" then [("pincode", "Pincode is required")]
    else errorIf (!pincodeRegex formData.pincode) "pincode"
      "Please enter a valid 6-digit pincode") ++
  errorIf profileImage.isNone "profileImage" "Profile image is required"

/-- The payload the registration page builds; `json street city pincode` stands for
`JSON.stringify` of the address object with `Number(pincode)`. -/
def RegisterPage.submitData (json : String → String → String → String)
    (formData : RegisterForm) (profileImage : Option String) : FormData :=
  [("fname", formData.fname), ("lname", formData.lname), ("email", formData.email),
   ("phone", formData.phone), ("password", formData.password),
   ("profileImage", profileImage.getD "null"),
   ("address", json formData.street formData.city formData.pincode)]

/-- The `handleSubmit` handler of the registration page. -/
def RegisterPage.handleSubmit (json : String → String → String → String) (w : Browser)
    (s : AuthState) (formData : RegisterForm) (profileImage : Option String)
    (o : Outcome Profile) : PageStep :=
  if RegisterPage.validateForm formData profileImage ≠ [] then
    PageStep.stopped w s [("error", "Please fix the errors in the form")]
      (some (RegisterPage.validateForm formData profileImage)) none none
  else
    let r := useAuthStore.register w s (RegisterPage.submitData json formData profileImage) o
    match r.result with
    | none =>
      { calls := [.register (RegisterPage.submitData json formData profileImage)], step := r,
        toasts := [], navigate := none, errors := some [], isEditing := none,
        threw := some typeError }
    | some result =>
      if result.success then
        { calls := [.register (RegisterPage.submitData json formData profileImage)], step := r,
          toasts := [("success", "Registration successful! Please login.")],
          navigate := some "/login", errors := some [], isEditing := none, threw := none }
      else
        { calls := [.register (RegisterPage.submitData json formData profileImage)], step := r,
          toasts := [("error", orElse result.error "Registration failed")],
          navigate := none, errors := some [], isEditing := none, threw := none }

/-- The `validateForm` function of the login page. -/
def LoginPage.validateForm (formData : Credentials) : List (String × String) :=
  (if formData.email = "" then [("email", "Email is required")]
    else errorIf (!emailRegex formData.email) "email" "Please enter a valid email") ++
  errorIf (decide (formData.password = "")) "password" "Password is required"

/-- The `handleSubmit` handler of the login page; `origin` is
`location.state?.from?.pathname`. -/
def LoginPage.handleSubmit (w : Browser) (s : AuthState) (formData : Credentials)
    (origin : Option String) (o : Outcome LoginData) (oProfile : Outcome Profile) : PageStep :=
  if LoginPage.validateForm formData ≠ [] then
    PageStep.stopped w s [] (some (LoginPage.validateForm formData)) none none
  else
    let r := useAuthStore.login w s formData o oProfile
    match r.result with
    | none =>
      { calls := [.login formData], step := r, toasts := [], navigate := none,
        errors := some [], isEditing := none, threw := some typeError }
    | some result =>
      if result.success then
        { calls := [.login formData], step := r, toasts := [("success", "Login successful!")],
          navigate := some (orElse origin "/"), errors := some [], isEditing := none,
          threw := none }
      else
        { calls := [.login formData], step := r,
          toasts := [("error", orElse result.error "Login failed")], navigate := none,
          errors := some [], isEditing := none, threw := none }

/-! ## `pages/ProfilePage.jsx` -/

/-- The `formData` state of the profile page. -/
structure ProfileForm where
  fname : String
  lname : String
  phone : String
  street : String
  city : String
  pincode : String
deriving DecidableEq, Repr

/-- The shipping address of a profile that may be absent: `user?.address?.shipping`. -/
def shippingOf (user : Option Profile) : Option Address :=
  user.bind (fun u => u.shipping)

/-- The decimal text of a pincode: `pincode?.toString()`. -/
def pincodeText (address : Option Address) : Option String :=
  (address.bind (fun a => a.pincode)).map (fun n => toString n)

/-- The `initialFormData` of the profile page: each field of the profile, or the empty
string. -/
def ProfilePage.initialFormData (user : Option Profile) : ProfileForm :=
  { fname := orElse (user.bind (fun u => u.fname)) "",
    lname := orElse (user.bind (fun u => u.lname)) "",
    phone := orElse (user.bind (fun u => u.phone)) "",
    street := orElse ((shippingOf user).bind (fun a => a.street)) "",
    city := orElse ((shippingOf user).bind (fun a => a.city)) "",
    pincode := orElse (pincodeText (shippingOf user)) "" }

/-- The `validateForm` function of the profile page: a field is checked only when it is not
empty. -/
def ProfilePage.validateForm (formData : ProfileForm) : List (String × String) :=
  errorIf (decide (formData.fname ≠ "") && !nameRegex formData.fname) "fname"
    "First name is not valid" ++
  errorIf (decide (formData.lname ≠ "") && !nameRegex formData.lname) "lname"
    "Last name is not valid" ++
  errorIf (decide (formData.phone ≠ "") && !phoneRegex formData.phone) "phone"
    "Please enter a valid Indian mobile number" ++
  errorIf (decide (formData.city ≠ "") && !nameRegex formData.city) "city"
    "City name is not valid" ++
  errorIf (decide (formData.pincode ≠ "") && !pincodeRegex formData.pincode) "pincode"
    "Please enter a valid 6-digit pincode"

/-- The comparison `value !== field` of a form string with a profile field that may be
missing. -/
def strictNe (value : String) (field : Option String) : Bool :=
  decide (field ≠ some value)

/-- The entries `handleSubmit` of the profile page appends to its payload for the profile
`user`; `json street city pincode` stands for `JSON.stringify` of the address object with
`Number(pincode)`. -/
def ProfilePage.submitData (json : String → String → String → String) (user : Profile)
    (formData : ProfileForm) (profileImage : Option String) : FormData :=
  (if strictNe formData.fname user.fname then [("fname", formData.fname)] else []) ++
  (if strictNe formData.lname user.lname then [("lname", formData.lname)] else []) ++
  (if strictNe formData.phone user.phone then [("phone", formData.phone)] else []) ++
  (if strictNe formData.street (user.shipping.bind (fun a => a.street)) ||
        strictNe formData.city (user.shipping.bind (fun a => a.city)) ||
        strictNe formData.pincode (pincodeText user.shipping) then
      [("address", json formData.street formData.city formData.pincode)]
    else []) ++
  (match profileImage with
    | some file => [("profileImage", file)]
    | none => [])

/-- The `handleSubmit` handler of the profile page; `user` is the profile of the session
store, and reading a field of a missing profile throws. -/
def ProfilePage.handleSubmit (json : String → String → String → String) (w : Browser)
    (s : AuthState) (formData : ProfileForm) (profileImage : Option String)
    (o : Outcome Profile) : PageStep :=
  if ProfilePage.validateForm formData ≠ [] then
    PageStep.stopped w s [("error", "Please fix the errors in the form")]
      (some (ProfilePage.validateForm formData)) none none
  else
    match s.user with
    | none => PageStep.stopped w s [] (some []) none (some typeError)
    | some user =>
      if ProfilePage.submitData json user formData profileImage = [] then
        PageStep.stopped w s [("error", "No changes to save")] (some []) (some false) none
      else
        let r := useAuthStore.updateProfile w s
          (ProfilePage.submitData json user formData profileImage) o
        match r.result with
        | none =>
          { calls := [.updateProfile (ProfilePage.submitData json user formData profileImage)],
            step := r, toasts := [], navigate := none, errors := some [], isEditing := none,
            threw := some typeError }
        | some result =>
          if result.success then
            { calls := [.updateProfile (ProfilePage.submitData json user formData profileImage)],
              step := r, toasts := [("success", "Profile updated successfully")],
              navigate := none, errors := some [], isEditing := some false, threw := none }
          else
            { calls := [.updateProfile (ProfilePage.submitData json user formData profileImage)],
              step := r, toasts := [("error", orElse result.error "Failed to update profile")],
              navigate := none, errors := some [], isEditing := none, threw := none }

/-! ## Concrete scenarios -/

namespace Scenario

/-- A browser of a logged-in user: token `t1` and user id `u1` in `localStorage`. -/
def browser : Browser :=
  { localStorage := [("token", "t1"), ("userId", "u1")], href := "/cart" }

/-- A cart store holding cart `c1` with two units of product `p1`. -/
def cartStore : CartState :=
  { cart := none, cartId := some "c1", items := [{ productId := "p1", quantity := 2 }],
    totalPrice := 40, totalItems := 1, isLoading := false, error := none }

/-- The cart `c1` once its only line is gone. -/
def emptied : CartData :=
  { _id := some "c1", items := some [], totalPrice := some 0, totalItems := some 0 }

/-- The rejection of a request answered with status 401. -/
def unauthorized : JsError :=
  { response := some { status := 401, message := some "Unauthorized" },
    message := "Request failed with status code 401" }

/-- A profile document. -/
def profile : Profile :=
  { fname := some "Ada", lname := some "Byron", email := some "a@b.com", phone := none,
    profileImage := none, shipping := none, billing := none }

/-- A session store of the logged-in user `u1` with token `t1` and a fetched profile. -/
def session : AuthState :=
  { user := some profile, token := some "t1", userId := some "u1", isAuthenticated := true,
    isLoading := false, error := none }

/-- The credentials of the specification's login scenario. -/
def credentials : Credentials :=
  { email := "a@b.com", password := "Secret1!" }

/-- A browser that holds nothing: nobody is logged in. -/
def anonymous : Browser :=
  { localStorage := [], href := "/login" }

/-- The login response `{status: true, data: {userId: "u2", token: "t2"}}`. -/
def loginOk : Outcome LoginData :=
  .resolved { status := true, data := some { userId := some "u2", token := some "t2" },
              message := none }

/-- A profile response `{status: false, message: "User not found"}`. -/
def profileRefused : Outcome Profile :=
  .resolved { status := false, data := none, message := some "User not found" }

/-- A cart response `{status: false, message: "Cart unavailable"}`. -/
def cartRefused : Outcome CartData :=
  .resolved { status := false, data := none, message := some "Cart unavailable" }

/-- A session store with a request in flight: `isLoading` is true. -/
def busySession : AuthState :=
  { user := some profile, token := some "t1", userId := some "u1", isAuthenticated := true,
    isLoading := true, error := some "old" }

/-- A registration form that passes validation. -/
def registerForm : RegisterForm :=
  { fname := "Ada", lname := "Byron", email := "a@b.com", phone := "9876543210",
    password := "Secret1!", confirmPassword := "Secret1!", street := "1 Main St",
    city := "Pune", pincode := "411001" }

/-- A stand-in for `JSON.stringify` of the address object. -/
def json (street city pincode : String) : String :=
  street ++ "|" ++ city ++ "|" ++ pincode

/-- A complete profile whose fields pass the validation of the profile form. -/
def fullProfile : Profile :=
  { fname := some "Ada", lname := some "Byron", email := some "a@b.com",
    phone := some "9876543210", profileImage := some "ada.png",
    shipping := some { street := some "1 Main St", city := some "Pune", pincode := some 411001 },
    billing := some { street := some "1 Main St", city := some "Pune", pincode := some 411001 } }

/-- A session store, not authenticated, that holds no profile but (from a request made
before a logout) is still loading. -/
def loggedOutBusy : AuthState :=
  { user := none, token := none, userId := none, isAuthenticated := false, isLoading := true,
    error := none }

/-- A complete profile whose stored phone number is not an Indian mobile number. -/
def landlineProfile : Profile :=
  { fullProfile with phone := some "12345" }

/-- A response cart with one line that carries no `_id`. -/
def unidentified : CartData :=
  { _id := none, items := some [{ productId := "p2", quantity := 1 }], totalPrice := some 10,
    totalItems := some 1 }

end Scenario

/-! ## Lemmas on the embedding -/

section Lemmas

theorem Storage.getItem_removeItem_self (ls : Storage) (key : String) :
    Storage.getItem (Storage.removeItem ls key) key = none := by
  induction ls with
  | nil => rfl
  | cons kv rest ih =>
    obtain ⟨k, v⟩ := kv
    by_cases h : k = key
    · simpa [Storage.removeItem, List.filter_cons, h] using ih
    · simpa [Storage.removeItem, List.filter_cons, h, Storage.getItem] using ih

theorem Storage.getItem_removeItem_ne (ls : Storage) (key other : String) (h : other ≠ key) :
    Storage.getItem (Storage.removeItem ls key) other = Storage.getItem ls other := by
  induction ls with
  | nil => rfl
  | cons kv rest ih =>
    obtain ⟨k, v⟩ := kv
    unfold Storage.removeItem at ih ⊢
    by_cases hk : k = key
    · subst hk
      have hne : ¬ k = other := fun e => h e.symm
      rw [List.filter_cons_of_neg (by simp), Storage.getItem, if_neg hne]
      exact ih
    · rw [List.filter_cons_of_pos (by simpa using hk)]
      by_cases ho : k = other
      · simp [Storage.getItem, ho]
      · simp only [Storage.getItem, ho, if_false]
        exact ih

theorem Storage.getItem_setItem_self (ls : Storage) (key value : String) :
    Storage.getItem (Storage.setItem ls key value) key = some value := by
  simp [Storage.setItem, Storage.getItem]

theorem Storage.getItem_setItem_ne (ls : Storage) (key value other : String) (h : other ≠ key) :
    Storage.getItem (Storage.setItem ls key value) other = Storage.getItem ls other := by
  have hne : ¬ key = other := fun e => h e.symm
  simp [Storage.setItem, Storage.getItem, hne, Storage.getItem_removeItem_ne ls key other h]

theorem truthyStr_some_of_ne (s : String) (h : s ≠ "") : truthyStr (some s) = some s := by
  simp [truthyStr, h]

theorem truthyStr_eq_some {a : Option String} {s : String} (h : truthyStr a = some s) :
    a = some s ∧ s ≠ "" := by
  cases a with
  | none => simp [truthyStr] at h
  | some x =>
    by_cases hx : x = ""
    · simp [truthyStr, hx] at h
    · simp [truthyStr, hx] at h
      subst h
      exact ⟨rfl, hx⟩

theorem apiCall_resolved {α : Type} (w : Browser) (config : Request) (body : Envelope α) :
    apiCall w config (.resolved body) = (w, requestInterceptor config w.localStorage) := rfl

theorem apiCall_request {α : Type} (w : Browser) (config : Request) (o : Outcome α) :
    (apiCall w config o).2 = requestInterceptor config w.localStorage := by
  cases o <;> rfl

end Lemmas

/-! ## The cart store replaces its snapshot from the response -/

section CartSnapshot

open useCartStore

theorem useCartStore.addItem_success (w : Browser) (s : CartState) (productId : String)
    (quantity : Option Int) (cart : CartData) (message : Option String)
    (hUser : (truthyStr (w.localStorage.getItem "userId")).isSome = true) :
    (addItem w s productId quantity (success cart message)).state = snapshot cart ∧
      (addItem w s productId quantity (success cart message)).browser = w ∧
      (addItem w s productId quantity (success cart message)).result = some Result.ok := by
  obtain ⟨userId, hu⟩ := Option.isSome_iff_exists.mp hUser
  simp [addItem, hu, success, snapshot, apiCall]

theorem useCartStore.addItems_last (w : Browser)
    (hUser : (truthyStr (w.localStorage.getItem "userId")).isSome = true)
    (calls : List AddCall) (last : AddCall) (s : CartState) :
    addItems w s (calls ++ [last]) = snapshot last.cart := by
  induction calls generalizing s with
  | nil =>
    simp [addItems, (addItem_success w s last.productId last.quantity last.cart last.message
      hUser).1]
  | cons call rest ih =>
    simp only [List.cons_append, addItems,
      (addItem_success w s call.productId call.quantity call.cart call.message hUser).2.1]
    exact ih _

/-- C1: whatever the store held before, a successful `addItem` leaves `cartId`, `items`,
`totalPrice` and `totalItems` equal to `_id`, `items`, `totalPrice` and `totalItems` of the
response payload (a missing `items` reads as the empty list, a missing total as 0), so the
result does not depend on the prior store, the product or the quantity; and after any
sequence of successful calls the store is what the last payload alone determines, the same
as after that one call on the empty store. -/
theorem addItem_replaces_snapshot (w : Browser) (s : CartState) (productId : String)
    (quantity : Option Int) (cart : CartData) (message : Option String)
    (hUser : (truthyStr (w.localStorage.getItem "userId")).isSome = true) :
    (addItem w s productId quantity (success cart message)).state.cartId = cart._id ∧
      (addItem w s productId quantity (success cart message)).state.items =
        cart.items.getD [] ∧
      (addItem w s productId quantity (success cart message)).state.totalPrice =
        cart.totalPrice.getD 0 ∧
      (addItem w s productId quantity (success cart message)).state.totalItems =
        cart.totalItems.getD 0 ∧
      (∀ (s2 : CartState) (productId2 : String) (quantity2 : Option Int)
          (message2 : Option String),
        (addItem w s2 productId2 quantity2 (success cart message2)).state =
          (addItem w s productId quantity (success cart message)).state) ∧
      (∀ (calls : List AddCall) (p : String) (q : Option Int) (m : Option String),
        addItems w s (calls ++ [{ productId := p, quantity := q, cart := cart, message := m }]) =
          (addItem w useCartStore.initial p q (success cart m)).state) := by
  have h := addItem_success w s productId quantity cart message hUser
  refine ⟨?_, ?_, ?_, ?_, ?_, ?_⟩
  · rw [h.1]; rfl
  · rw [h.1]; rfl
  · rw [h.1]; rfl
  · rw [h.1]; rfl
  · intro s2 p2 q2 m2
    rw [h.1, (addItem_success w s2 p2 q2 cart m2 hUser).1]
  · intro calls p q m
    rw [addItems_last w hUser calls { productId := p, quantity := q, cart := cart, message := m } s,
      (addItem_success w useCartStore.initial p q cart m hUser).1]

/-- C1 at the scenario of the specification: `addItem("p1", 2)` without a cached `cartId`,
answered by cart `c1` with one line, total price 40 and one item. -/
theorem addItem_replaces_snapshot_witness :
    (truthyStr (Storage.getItem [("token", "t1"), ("userId", "u1")] "userId")).isSome = true ∧
      (addItem { localStorage := [("token", "t1"), ("userId", "u1")], href := "/" }
        useCartStore.initial "p1" (some 2)
        (success { _id := some "c1", items := some [{ productId := "p1", quantity := 2 }],
                   totalPrice := some 40, totalItems := some 1 } none)).state.cartId = some "c1" ∧
      (addItem { localStorage := [("token", "t1"), ("userId", "u1")], href := "/" }
        useCartStore.initial "p1" (some 2)
        (success { _id := some "c1", items := some [{ productId := "p1", quantity := 2 }],
                   totalPrice := some 40, totalItems := some 1 } none)).state.totalPrice = 40 ∧
      (addItem { localStorage := [("token", "t1"), ("userId", "u1")], href := "/" }
        useCartStore.initial "p1" (some 2)
        (success { _id := some "c1", items := some [{ productId := "p1", quantity := 2 }],
                   totalPrice := some 40, totalItems := some 1 } none)).state.totalItems = 1 :=
  have h := addItem_replaces_snapshot
    { localStorage := [("token", "t1"), ("userId", "u1")], href := "/" }
    useCartStore.initial "p1" (some 2)
    { _id := some "c1", items := some [{ productId := "p1", quantity := 2 }],
      totalPrice := some 40, totalItems := some 1 } none (by decide)
  ⟨by decide, h.1, h.2.2.1, h.2.2.2.1⟩

end CartSnapshot

/-! ## Not-found fetch, update, and the aliases of `updateItem` -/

section CartUpdate

open useCartStore

/-- C5: with a known user id, a `fetchCart` rejected with status 404 leaves `cart`, `cartId`,
`items`, `totalPrice`, `totalItems` and `error` as `resetCart` leaves them from the same
state: no cart, no cart id, no items, zero totals, no error. -/
theorem fetchCart_notFound_as_resetCart (w : Browser) (s : CartState) (error : JsError)
    (hUser : (truthyStr (w.localStorage.getItem "userId")).isSome = true)
    (hStatus : error.response.map (fun r => r.status) = some 404) :
    (fetchCart w s (.rejected error)).state.cart = (resetCart w s).state.cart ∧
      (fetchCart w s (.rejected error)).state.cartId = (resetCart w s).state.cartId ∧
      (fetchCart w s (.rejected error)).state.items = (resetCart w s).state.items ∧
      (fetchCart w s (.rejected error)).state.totalPrice = (resetCart w s).state.totalPrice ∧
      (fetchCart w s (.rejected error)).state.totalItems = (resetCart w s).state.totalItems ∧
      (fetchCart w s (.rejected error)).state.error = (resetCart w s).state.error ∧
      (fetchCart w s (.rejected error)).state.cart = none ∧
      (fetchCart w s (.rejected error)).state.cartId = none ∧
      (fetchCart w s (.rejected error)).state.items = [] ∧
      (fetchCart w s (.rejected error)).state.totalPrice = 0 ∧
      (fetchCart w s (.rejected error)).state.totalItems = 0 ∧
      (fetchCart w s (.rejected error)).state.error = none := by
  obtain ⟨userId, hu⟩ := Option.isSome_iff_exists.mp hUser
  simp [fetchCart, resetCart, hu, hStatus]

/-- C5 on a store that holds a cart and an old error, the remote answering 404. -/
theorem fetchCart_notFound_as_resetCart_witness :
    (truthyStr (Storage.getItem [("userId", "u1")] "userId")).isSome = true ∧
      (some (404 : Nat)) = some 404 ∧
      (fetchCart { localStorage := [("userId", "u1")], href := "/cart" }
        { cart := none, cartId := some "c1", items := [{ productId := "p1", quantity := 3 }],
          totalPrice := 60, totalItems := 1, isLoading := false, error := some "old" }
        (.rejected { response := some { status := 404, message := some "no cart" },
                     message := "Request failed with status code 404" })).state.error = none ∧
      (fetchCart { localStorage := [("userId", "u1")], href := "/cart" }
        { cart := none, cartId := some "c1", items := [{ productId := "p1", quantity := 3 }],
          totalPrice := 60, totalItems := 1, isLoading := false, error := some "old" }
        (.rejected { response := some { status := 404, message := some "no cart" },
                     message := "Request failed with status code 404" })).state.items = [] :=
  have h := fetchCart_notFound_as_resetCart
    { localStorage := [("userId", "u1")], href := "/cart" }
    { cart := none, cartId := some "c1", items := [{ productId := "p1", quantity := 3 }],
      totalPrice := 60, totalItems := 1, isLoading := false, error := some "old" }
    { response := some { status := 404, message := some "no cart" },
      message := "Request failed with status code 404" } (by decide) rfl
  ⟨by decide, rfl, h.2.2.2.2.2.2.2.2.2.2.2, h.2.2.2.2.2.2.2.2.1⟩

/-- C8: from the same browser and store and against the same remote outcome, `removeItem p`
and `updateItem p true` end in the same store and browser and return the same result. -/
theorem removeItem_same_state_as_updateItem_true (w : Browser) (s : CartState)
    (productId : String) (o : Outcome CartData) :
    (removeItem w s productId o).state = (updateItem w s productId (.bool true) o).state ∧
      (removeItem w s productId o).result = (updateItem w s productId (.bool true) o).result ∧
      (removeItem w s productId o).browser = (updateItem w s productId (.bool true) o).browser := by
  unfold removeItem updateItem
  cases hU : truthyStr (w.localStorage.getItem "userId") with
  | none => simp
  | some userId =>
    cases hC : truthyStr s.cartId with
    | none => simp
    | some cartId =>
      cases o with
      | rejected error => simp [caught, apiCall]
      | resolved response =>
        obtain ⟨status, data, message⟩ := response
        cases status <;> cases data <;> simp [caught, apiCall]

/-- C9: with a known user id and cart id, after a successful `updateItem` the store holds
`items`, `totalPrice` and `totalItems` of the response payload (a missing `items` reads as the
empty list, a missing total as 0), whatever the prior store, the product and the flag. -/
theorem updateItem_replaces_from_response (w : Browser) (s : CartState) (productId : String)
    (removeProduct : JsFlag) (cart : CartData) (message : Option String)
    (hUser : (truthyStr (w.localStorage.getItem "userId")).isSome = true)
    (hCart : (truthyStr s.cartId).isSome = true) :
    (updateItem w s productId removeProduct (success cart message)).state.items = cart.items.getD [] ∧
      (updateItem w s productId removeProduct (success cart message)).state.totalPrice =
        cart.totalPrice.getD 0 ∧
      (updateItem w s productId removeProduct (success cart message)).state.totalItems =
        cart.totalItems.getD 0 ∧
      (updateItem w s productId removeProduct (success cart message)).state.cart = some cart ∧
      (updateItem w s productId removeProduct (success cart message)).result = some Result.ok ∧
      (∀ (s2 : CartState) (productId2 : String) (removeProduct2 : JsFlag)
          (message2 : Option String),
        (truthyStr s2.cartId).isSome = true →
        (updateItem w s2 productId2 removeProduct2 (success cart message2)).state.items =
            (updateItem w s productId removeProduct (success cart message)).state.items ∧
          (updateItem w s2 productId2 removeProduct2 (success cart message2)).state.totalPrice =
            (updateItem w s productId removeProduct (success cart message)).state.totalPrice ∧
          (updateItem w s2 productId2 removeProduct2 (success cart message2)).state.totalItems =
            (updateItem w s productId removeProduct (success cart message)).state.totalItems) := by
  obtain ⟨userId, hu⟩ := Option.isSome_iff_exists.mp hUser
  obtain ⟨cartId, hc⟩ := Option.isSome_iff_exists.mp hCart
  refine ⟨?_, ?_, ?_, ?_, ?_, ?_⟩
  · simp [updateItem, hu, hc, success, apiCall]
  · simp [updateItem, hu, hc, success, apiCall]
  · simp [updateItem, hu, hc, success, apiCall]
  · simp [updateItem, hu, hc, success, apiCall]
  · simp [updateItem, hu, hc, success, apiCall]
  · intro s2 p2 f2 m2 hCart2
    obtain ⟨cartId2, hc2⟩ := Option.isSome_iff_exists.mp hCart2
    simp [updateItem, hu, hc, hc2, success, apiCall]

/-- C9 at the scenario of the specification: `updateItem("p1", false)` on a cart whose line
`p1` has quantity 1, answered by a cart without lines and `totalItems` 0. -/
theorem updateItem_replaces_from_response_witness :
    (truthyStr (Storage.getItem [("token", "t1"), ("userId", "u1")] "userId")).isSome = true ∧
      (truthyStr (some "c1")).isSome = true ∧
      (updateItem { localStorage := [("token", "t1"), ("userId", "u1")], href := "/cart" }
        { cart := none, cartId := some "c1", items := [{ productId := "p1", quantity := 1 }],
          totalPrice := 20, totalItems := 1, isLoading := false, error := none }
        "p1" (.bool false)
        (success { _id := some "c1", items := some [], totalPrice := some 0,
                   totalItems := some 0 } none)).state.items = [] ∧
      (updateItem { localStorage := [("token", "t1"), ("userId", "u1")], href := "/cart" }
        { cart := none, cartId := some "c1", items := [{ productId := "p1", quantity := 1 }],
          totalPrice := 20, totalItems := 1, isLoading := false, error := none }
        "p1" (.bool false)
        (success { _id := some "c1", items := some [], totalPrice := some 0,
                   totalItems := some 0 } none)).state.totalItems = 0 :=
  have h := updateItem_replaces_from_response
    { localStorage := [("token", "t1"), ("userId", "u1")], href := "/cart" }
    { cart := none, cartId := some "c1", items := [{ productId := "p1", quantity := 1 }],
      totalPrice := 20, totalItems := 1, isLoading := false, error := none }
    "p1" (.bool false)
    { _id := some "c1", items := some [], totalPrice := some 0, totalItems := some 0 } none
    (by decide) (by decide)
  ⟨by decide, by decide, h.1, h.2.2.1⟩

end CartUpdate

section Aliases

open useCartStore

/-- C7, as stated, fails: with user `u1` and cart `c1`, the request of `removeItem("p1")`
carries `removeProduct: 0` and differs from the request of `updateItem("p1", true)`, and the
request of `decreaseQuantity("p1")` carries `removeProduct: 1` and differs from the request of
`updateItem("p1", false)`. -/
theorem removeItem_request_differs_from_flag_true :
    (removeItem Scenario.browser Scenario.cartStore "p1" (success Scenario.emptied none)).requests
      = [{ method := .PUT, url := "/users/u1/cart",
           data := .updateItem "c1" "p1" (.num 0),
           headers := [("Authorization", "Bearer t1"), ("Content-Type", "application/json")] }] ∧
    (updateItem Scenario.browser Scenario.cartStore "p1" (.bool true)
        (success Scenario.emptied none)).requests
      = [{ method := .PUT, url := "/users/u1/cart",
           data := .updateItem "c1" "p1" (.bool true),
           headers := [("Authorization", "Bearer t1"), ("Content-Type", "application/json")] }] ∧
    (removeItem Scenario.browser Scenario.cartStore "p1" (success Scenario.emptied none)).requests
      ≠ (updateItem Scenario.browser Scenario.cartStore "p1" (.bool true)
          (success Scenario.emptied none)).requests ∧
    (decreaseQuantity Scenario.browser Scenario.cartStore "p1"
        (success Scenario.emptied none)).requests
      ≠ (updateItem Scenario.browser Scenario.cartStore "p1" (.bool false)
          (success Scenario.emptied none)).requests := by
  decide

/-- C7, amended: `removeItem p` is `updateItem p 0` and `decreaseQuantity p` is
`updateItem p 1`, on every browser, store and remote outcome; with user id `u` and cart id
`c` known, each issues exactly one request, `PUT /users/u/cart`, whose body is
`{cartId: c, productId: p, removeProduct: 0}` for `removeItem` and
`{cartId: c, productId: p, removeProduct: 1}` for `decreaseQuantity`. -/
theorem removeItem_decreaseQuantity_numeric_flag (w : Browser) (s : CartState)
    (productId : String) (o : Outcome CartData) (userId cartId : String)
    (hUser : truthyStr (w.localStorage.getItem "userId") = some userId)
    (hCart : truthyStr s.cartId = some cartId) :
    removeItem w s productId o = updateItem w s productId (.num 0) o ∧
      decreaseQuantity w s productId o = updateItem w s productId (.num 1) o ∧
      (removeItem w s productId o).requests =
        [requestInterceptor
          { method := .PUT, url := "/users/" ++ userId ++ "/cart",
            data := .updateItem cartId productId (.num 0), headers := jsonHeaders }
          w.localStorage] ∧
      (decreaseQuantity w s productId o).requests =
        [requestInterceptor
          { method := .PUT, url := "/users/" ++ userId ++ "/cart",
            data := .updateItem cartId productId (.num 1), headers := jsonHeaders }
          w.localStorage] := by
  refine ⟨rfl, rfl, ?_, ?_⟩
  · unfold removeItem updateItem
    obtain ⟨status, data, message⟩ | error := o
    · cases status <;> cases data <;>
        simp [hUser, hCart, caught, apiCall, cartAPI.updateItem]
    · simp [hUser, hCart, caught, apiCall_request, cartAPI.updateItem]
  · unfold decreaseQuantity updateItem
    obtain ⟨status, data, message⟩ | error := o
    · cases status <;> cases data <;>
        simp [hUser, hCart, caught, apiCall, cartAPI.updateItem]
    · simp [hUser, hCart, caught, apiCall_request, cartAPI.updateItem]

/-- C7, amended, for user `u1`, cart `c1` and product `p1`. -/
theorem removeItem_decreaseQuantity_numeric_flag_witness :
    truthyStr (Scenario.browser.localStorage.getItem "userId") = some "u1" ∧
      truthyStr Scenario.cartStore.cartId = some "c1" ∧
      (removeItem Scenario.browser Scenario.cartStore "p1" (success Scenario.emptied none)).requests =
        [requestInterceptor
          { method := .PUT, url := "/users/" ++ "u1" ++ "/cart",
            data := .updateItem "c1" "p1" (.num 0), headers := jsonHeaders }
          Scenario.browser.localStorage] :=
  ⟨by decide, by decide,
    (removeItem_decreaseQuantity_numeric_flag Scenario.browser Scenario.cartStore "p1"
      (success Scenario.emptied none) "u1" "c1" (by decide) (by decide)).2.2.1⟩

end Aliases

/-! ## The response handler and what follows a logout -/

section Eviction

open useCartStore

/-- C10: the error handler of the response interceptor rejects with the very error it was
given; on status 401 the token and the user id are gone from `localStorage` afterwards and
every other key is as before; on any other status, or without a response, the browser
(`localStorage` included) is unchanged. -/
theorem responseInterceptor_rejects_and_evicts (error : JsError) (w : Browser) :
    (responseInterceptor error w).2 = error ∧
      (error.response.map (fun r => r.status) = some 401 →
        (responseInterceptor error w).1.localStorage.getItem "token" = none ∧
          (responseInterceptor error w).1.localStorage.getItem "userId" = none ∧
          ∀ key : String, key ≠ "token" → key ≠ "userId" →
            (responseInterceptor error w).1.localStorage.getItem key =
              w.localStorage.getItem key) ∧
      (error.response.map (fun r => r.status) ≠ some 401 →
        (responseInterceptor error w).1 = w) := by
  refine ⟨?_, ?_, ?_⟩
  · unfold responseInterceptor
    split <;> rfl
  · intro h
    simp only [responseInterceptor, h, if_true]
    refine ⟨?_, ?_, ?_⟩
    · rw [Storage.getItem_removeItem_ne _ "userId" "token" (by decide)]
      exact Storage.getItem_removeItem_self _ _
    · exact Storage.getItem_removeItem_self _ _
    · intro key h1 h2
      rw [Storage.getItem_removeItem_ne _ "userId" key h2,
        Storage.getItem_removeItem_ne _ "token" key h1]
  · intro h
    simp only [responseInterceptor, h, if_false]

/-- C10 on a 401 and on a 500 for a browser that holds a token, a user id and the persisted
slice of the cart store. -/
theorem responseInterceptor_rejects_and_evicts_witness :
    (responseInterceptor Scenario.unauthorized
        { localStorage := [("token", "t1"), ("cart-storage", "c1"), ("userId", "u1")],
          href := "/cart" }).1.localStorage = [("cart-storage", "c1")] ∧
      (responseInterceptor
        { response := some { status := 500, message := none }, message := "Server Error" }
        Scenario.browser).1 = Scenario.browser :=
  ⟨by decide,
    (responseInterceptor_rejects_and_evicts
      { response := some { status := 500, message := none }, message := "Server Error" }
      Scenario.browser).2.2 (by decide)⟩

theorem useAuthStore.logout_userId (w : Browser) (s : AuthState) :
    truthyStr ((useAuthStore.logout w s).browser.localStorage.getItem "userId") = none := by
  simp [useAuthStore.logout, Storage.getItem_removeItem_self, truthyStr]

/-- After `logout`, `addItem`, `updateItem`, `removeItem` and `decreaseQuantity` issue no
request, leave the cart store alone and resolve to a failure object. -/
theorem useCartStore.after_logout_fail_fast (w : Browser) (s : AuthState) (c : CartState)
    (productId : String) (quantity : Option Int) (removeProduct : JsFlag)
    (o : Outcome CartData) :
    addItem (useAuthStore.logout w s).browser c productId quantity o =
        { browser := (useAuthStore.logout w s).browser, state := c, requests := [],
          result := some (Result.fail "Please login to add items to cart") } ∧
      updateItem (useAuthStore.logout w s).browser c productId removeProduct o =
        { browser := (useAuthStore.logout w s).browser, state := c, requests := [],
          result := some (Result.fail "Cart not found") } ∧
      removeItem (useAuthStore.logout w s).browser c productId o =
        { browser := (useAuthStore.logout w s).browser, state := c, requests := [],
          result := some (Result.fail "Cart not found") } ∧
      decreaseQuantity (useAuthStore.logout w s).browser c productId o =
        { browser := (useAuthStore.logout w s).browser, state := c, requests := [],
          result := some (Result.fail "Cart not found") } := by
  have h := useAuthStore.logout_userId w s
  refine ⟨?_, ?_, ?_, ?_⟩
  · simp only [addItem, h]
  · simp only [updateItem, h]
  · simp only [removeItem, updateItem, h]
  · simp only [decreaseQuantity, updateItem, h]

/-- C6, where the code departs from it: after `logout`, `clearCart` issues no request and
leaves the cart store alone, but its promise resolves to `undefined`, not to a failure
object, whatever the browser, the stores and the remote would have been. -/
theorem clearCart_after_logout_resolves_undefined (w : Browser) (s : AuthState)
    (c : CartState) (o : Outcome Unit) :
    (clearCart (useAuthStore.logout w s).browser c o).requests = [] ∧
      (clearCart (useAuthStore.logout w s).browser c o).state = c ∧
      (clearCart (useAuthStore.logout w s).browser c o).result = none ∧
      (clearCart (useAuthStore.logout Scenario.browser Scenario.session).browser
        Scenario.cartStore o).result = none := by
  have h := useAuthStore.logout_userId w s
  have h2 := useAuthStore.logout_userId Scenario.browser Scenario.session
  simp only [clearCart, h, h2, and_self]

end Eviction

/-! ## The session store -/

section Session

open useAuthStore

theorem useAuthStore.caught_session (w : Browser) (s : AuthState) (requests : List Request)
    (error : JsError) (fallback : String) :
    partialize (caught w s requests error fallback).state = partialize s := rfl

theorem useAuthStore.fetchProfile_session (w : Browser) (s : AuthState) (o : Outcome Profile) :
    partialize (fetchProfile w s o).state = partialize s := by
  unfold fetchProfile
  cases truthyStr (jsOr s.userId (w.localStorage.getItem "userId")) with
  | none => rfl
  | some userId =>
    obtain ⟨status, data, message⟩ | error := o
    · cases status <;> rfl
    · rfl

theorem useAuthStore.register_session (w : Browser) (s : AuthState) (formData : FormData)
    (o : Outcome Profile) :
    partialize (register w s formData o).state = partialize s := by
  unfold register
  obtain ⟨status, data, message⟩ | error := o
  · cases status <;> rfl
  · rfl

theorem useAuthStore.updateProfile_session (w : Browser) (s : AuthState) (formData : FormData)
    (o : Outcome Profile) :
    partialize (updateProfile w s formData o).state = partialize s := by
  unfold updateProfile
  cases truthyStr (jsOr s.userId (w.localStorage.getItem "userId")) with
  | none => rfl
  | some userId =>
    obtain ⟨status, data, message⟩ | error := o
    · cases status <;> rfl
    · rfl

theorem AuthState.consistent_of_partialize {s t : AuthState}
    (h : partialize t = partialize s) (hs : s.Consistent) : t.Consistent := by
  simp only [partialize, AuthSlice.mk.injEq] at h
  obtain ⟨h1, h2, h3⟩ := h
  unfold AuthState.Consistent at hs ⊢
  rw [h1, h2, h3]
  exact hs

theorem AuthAction.run_consistent (w : Browser) (s : AuthState) (a : AuthAction)
    (ha : a.CarriesCredentials) (hs : s.Consistent) : (a.run w s).state.Consistent := by
  cases a with
  | login credentials o oProfile =>
    obtain ⟨status, data, message⟩ | error := o
    · cases status with
      | false => exact AuthState.consistent_of_partialize rfl hs
      | true =>
        cases data with
        | none => exact AuthState.consistent_of_partialize rfl hs
        | some d =>
          have hd := ha rfl d rfl
          refine AuthState.consistent_of_partialize (fetchProfile_session _ _ oProfile) ?_
          simp only [AuthState.Consistent, hd.1, hd.2, and_self]
    · exact AuthState.consistent_of_partialize rfl hs
  | register formData o =>
    exact AuthState.consistent_of_partialize (register_session w s formData o) hs
  | fetchProfile o =>
    exact AuthState.consistent_of_partialize (fetchProfile_session w s o) hs
  | updateProfile formData o =>
    exact AuthState.consistent_of_partialize (updateProfile_session w s formData o) hs
  | logout => simp [AuthAction.run, useAuthStore.logout, AuthState.Consistent, truthyStr]
  | clearError => exact AuthState.consistent_of_partialize rfl hs

theorem runAuth_consistent (actions : List AuthAction) (w : Browser) (s : AuthState)
    (h : ∀ a ∈ actions, a.CarriesCredentials) (hs : s.Consistent) :
    (runAuth w s actions).2.Consistent := by
  induction actions generalizing w s with
  | nil => exact hs
  | cons a rest ih =>
    exact ih _ _ (fun b hb => h b (List.mem_cons_of_mem a hb))
      (AuthAction.run_consistent w s a (h a (List.mem_cons_self a rest)) hs)

/-- C2, as stated, fails: from the empty store, a login answered
`{status: true, data: {userId: "u1", token: ""}}` leaves `isAuthenticated` true with an empty
token, and one answered `{status: true, data: {}}` leaves it true with no token and no user
id. -/
theorem isAuthenticated_without_credentials :
    (runAuth { localStorage := [], href := "/login" } initial
        [.login Scenario.credentials
          (.resolved { status := true, data := some { userId := some "u1", token := some "" },
                       message := none })
          (.rejected { response := none, message := "Network Error" })]).2.isAuthenticated
        = true ∧
      (runAuth { localStorage := [], href := "/login" } initial
        [.login Scenario.credentials
          (.resolved { status := true, data := some { userId := some "u1", token := some "" },
                       message := none })
          (.rejected { response := none, message := "Network Error" })]).2.token = some "" ∧
      (runAuth { localStorage := [], href := "/login" } initial
        [.login Scenario.credentials
          (.resolved { status := true, data := some { userId := none, token := none },
                       message := none })
          (.rejected { response := none, message := "Network Error" })]).2.isAuthenticated
        = true ∧
      (runAuth { localStorage := [], href := "/login" } initial
        [.login Scenario.credentials
          (.resolved { status := true, data := some { userId := none, token := none },
                       message := none })
          (.rejected { response := none, message := "Network Error" })]).2.token = none ∧
      ¬ (runAuth { localStorage := [], href := "/login" } initial
        [.login Scenario.credentials
          (.resolved { status := true, data := some { userId := some "u1", token := some "" },
                       message := none })
          (.rejected { response := none, message := "Network Error" })]).2.Consistent := by
  refine ⟨by decide, by decide, by decide, by decide, ?_⟩
  unfold AuthState.Consistent
  decide

/-- C2, amended: in every session store reached from the empty store by any sequence of
`login`, `register`, `fetchProfile`, `updateProfile`, `logout` and `clearError`, whatever the
browser held and whatever the remote answered, provided each successful login response
carried a non-empty token and a non-empty user id, `isAuthenticated` is true exactly when
the token and the user id are both present and non-empty. -/
theorem isAuthenticated_iff_credentials (w : Browser) (actions : List AuthAction)
    (h : ∀ a ∈ actions, a.CarriesCredentials) :
    (runAuth w initial actions).2.isAuthenticated = true ↔
      ((truthyStr (runAuth w initial actions).2.token).isSome = true ∧
        (truthyStr (runAuth w initial actions).2.userId).isSome = true) :=
  runAuth_consistent actions w initial h (by simp [AuthState.Consistent, initial, truthyStr])

/-- C2, amended, on a login, a profile update rejected with 401, and a logout. -/
theorem isAuthenticated_iff_credentials_witness :
    (∀ a ∈ [AuthAction.login Scenario.credentials
              (.resolved { status := true, data := some { userId := some "u1", token := some "t1" },
                           message := none })
              (.resolved { status := true, data := some Scenario.profile, message := none }),
            AuthAction.updateProfile [("fname", "Ada")] (.rejected Scenario.unauthorized),
            AuthAction.logout], a.CarriesCredentials) ∧
      ((runAuth { localStorage := [], href := "/login" } initial
          [AuthAction.login Scenario.credentials
              (.resolved { status := true, data := some { userId := some "u1", token := some "t1" },
                           message := none })
              (.resolved { status := true, data := some Scenario.profile, message := none }),
            AuthAction.updateProfile [("fname", "Ada")] (.rejected Scenario.unauthorized),
            AuthAction.logout]).2.isAuthenticated = true ↔
        ((truthyStr (runAuth { localStorage := [], href := "/login" } initial
          [AuthAction.login Scenario.credentials
              (.resolved { status := true, data := some { userId := some "u1", token := some "t1" },
                           message := none })
              (.resolved { status := true, data := some Scenario.profile, message := none }),
            AuthAction.updateProfile [("fname", "Ada")] (.rejected Scenario.unauthorized),
            AuthAction.logout]).2.token).isSome = true ∧
          (truthyStr (runAuth { localStorage := [], href := "/login" } initial
          [AuthAction.login Scenario.credentials
              (.resolved { status := true, data := some { userId := some "u1", token := some "t1" },
                           message := none })
              (.resolved { status := true, data := some Scenario.profile, message := none }),
            AuthAction.updateProfile [("fname", "Ada")] (.rejected Scenario.unauthorized),
            AuthAction.logout]).2.userId).isSome = true)) :=
  have hw : ∀ a ∈ [AuthAction.login Scenario.credentials
              (.resolved { status := true, data := some { userId := some "u1", token := some "t1" },
                           message := none })
              (.resolved { status := true, data := some Scenario.profile, message := none }),
            AuthAction.updateProfile [("fname", "Ada")] (.rejected Scenario.unauthorized),
            AuthAction.logout], a.CarriesCredentials := by
    intro a ha
    simp only [List.mem_cons, List.mem_singleton, List.not_mem_nil, or_false] at ha
    rcases ha with rfl | rfl | rfl
    · intro _ data hd
      cases hd
      exact ⟨by decide, by decide⟩
    · trivial
    · trivial
  ⟨hw, isAuthenticated_iff_credentials _ _ hw⟩

end Session

section Login

open useAuthStore

/-- C3, as stated, fails twice. When the chained profile fetch is rejected with 401, the
login for `{userId: "u1", token: "t1"}` still returns `{success: true}` with the store
authenticated, yet `localStorage` holds neither the token nor the user id afterwards. When
the user id of the response is the empty string, no profile fetch is issued at all. -/
theorem login_success_without_stored_token :
    (login { localStorage := [], href := "/login" } initial Scenario.credentials
        (.resolved { status := true, data := some { userId := some "u1", token := some "t1" },
                     message := none })
        (.rejected Scenario.unauthorized)).result = some Result.ok ∧
      (login { localStorage := [], href := "/login" } initial Scenario.credentials
        (.resolved { status := true, data := some { userId := some "u1", token := some "t1" },
                     message := none })
        (.rejected Scenario.unauthorized)).state.isAuthenticated = true ∧
      (login { localStorage := [], href := "/login" } initial Scenario.credentials
        (.resolved { status := true, data := some { userId := some "u1", token := some "t1" },
                     message := none })
        (.rejected Scenario.unauthorized)).browser.localStorage.getItem "token" = none ∧
      (login { localStorage := [], href := "/login" } initial Scenario.credentials
        (.resolved { status := true, data := some { userId := some "u1", token := some "t1" },
                     message := none })
        (.rejected Scenario.unauthorized)).browser.localStorage.getItem "userId" = none ∧
      (login { localStorage := [], href := "/login" } initial Scenario.credentials
        (.resolved { status := true, data := some { userId := some "", token := some "t1" },
                     message := none })
        (.resolved { status := true, data := some Scenario.profile, message := none })).requests
        = [authAPI.login Scenario.credentials] := by
  decide

/-- C3, amended: for every login answered `{status: true, data: {userId: u, token: t}}` with
`u` non-empty, the call returns `{success: true}`, the store has `userId = u`, `token = t`
and `isAuthenticated = true`, and exactly one profile fetch follows the login request, for
user id `u`, sent with the storage that already holds `t` and `u`; unless that profile fetch
is rejected with status 401, `localStorage` holds token `t` and user id `u` afterwards. -/
theorem login_success (w : Browser) (s : AuthState) (credentials : Credentials)
    (u t : String) (message : Option String) (oProfile : Outcome Profile) (hu : u ≠ "") :
    (login w s credentials
        (.resolved { status := true, data := some { userId := some u, token := some t },
                     message := message }) oProfile).state.userId = some u ∧
      (login w s credentials
        (.resolved { status := true, data := some { userId := some u, token := some t },
                     message := message }) oProfile).state.token = some t ∧
      (login w s credentials
        (.resolved { status := true, data := some { userId := some u, token := some t },
                     message := message }) oProfile).state.isAuthenticated = true ∧
      (login w s credentials
        (.resolved { status := true, data := some { userId := some u, token := some t },
                     message := message }) oProfile).result = some Result.ok ∧
      (login w s credentials
        (.resolved { status := true, data := some { userId := some u, token := some t },
                     message := message }) oProfile).requests =
        [requestInterceptor (authAPI.login credentials) w.localStorage,
         requestInterceptor (authAPI.getProfile u)
          ((w.localStorage.setItem "token" t).setItem "userId" u)] ∧
      ((∀ e, oProfile = .rejected e → e.response.map (fun r => r.status) ≠ some 401) →
        (login w s credentials
          (.resolved { status := true, data := some { userId := some u, token := some t },
                       message := message }) oProfile).browser.localStorage.getItem "token"
          = some t ∧
        (login w s credentials
          (.resolved { status := true, data := some { userId := some u, token := some t },
                       message := message }) oProfile).browser.localStorage.getItem "userId"
          = some u) := by
  have hsess := fetchProfile_session
    { w with localStorage := (w.localStorage.setItem "token" t).setItem "userId" u }
    { s with isLoading := false, error := none, token := some t, userId := some u,
             isAuthenticated := true } oProfile
  simp only [partialize, AuthSlice.mk.injEq] at hsess
  have hid : truthyStr (jsOr (some u)
      (Storage.getItem ((w.localStorage.setItem "token" t).setItem "userId" u) "userId"))
      = some u := by
    simp [jsOr, truthyStr, hu]
  have htok : Storage.getItem ((w.localStorage.setItem "token" t).setItem "userId" u) "token"
      = some t := by
    rw [Storage.getItem_setItem_ne _ "userId" u "token" (by decide),
      Storage.getItem_setItem_self]
  have huid : Storage.getItem ((w.localStorage.setItem "token" t).setItem "userId" u) "userId"
      = some u := Storage.getItem_setItem_self _ _ _
  refine ⟨?_, ?_, ?_, ?_, ?_, ?_⟩
  · simpa [login, jsString, apiCall] using hsess.2.1
  · simpa [login, jsString, apiCall] using hsess.1
  · simpa [login, jsString, apiCall] using hsess.2.2
  · simp [login]
  · simp only [login, jsString, apiCall, fetchProfile, hid]
    obtain ⟨status, data, msg⟩ | error := oProfile
    · cases status <;> simp [apiCall]
    · simp [apiCall]
  · intro h401
    simp only [login, jsString, apiCall, fetchProfile, hid]
    obtain ⟨status, data, msg⟩ | error := oProfile
    · cases status <;> simp [apiCall, htok, huid]
    · have hne := h401 error rfl
      simp [apiCall, responseInterceptor, hne, htok, huid]

/-- C3, amended, at the scenario of the specification: the login answered
`{status: true, data: {userId: "u1", token: "t1"}}`, the profile fetch answered with the
profile. -/
theorem login_success_witness :
    ("u1" : String) ≠ "" ∧
      (login { localStorage := [], href := "/login" } initial Scenario.credentials
        (.resolved { status := true, data := some { userId := some "u1", token := some "t1" },
                     message := none })
        (.resolved { status := true, data := some Scenario.profile,
                     message := none })).requests =
        [requestInterceptor (authAPI.login Scenario.credentials) [],
         requestInterceptor (authAPI.getProfile "u1")
          ((Storage.setItem [] "token" "t1").setItem "userId" "u1")] ∧
      (login { localStorage := [], href := "/login" } initial Scenario.credentials
        (.resolved { status := true, data := some { userId := some "u1", token := some "t1" },
                     message := none })
        (.resolved { status := true, data := some Scenario.profile,
                     message := none })).browser.localStorage.getItem "token" = some "t1" :=
  have h := login_success { localStorage := [], href := "/login" } initial Scenario.credentials
    "u1" "t1" none
    (.resolved { status := true, data := some Scenario.profile, message := none })
    (by decide)
  ⟨by decide, h.2.2.2.2.1, (h.2.2.2.2.2 (fun e he => by cases he)).1⟩

/-- C4, where the code departs from it: a `fetchProfile` and an `updateProfile` of the
logged-in user `u1`, each rejected with status 401. The response handler empties
`localStorage` of the token and the user id and sends the browser to `/login`, but the
session store keeps token `t1`, user id `u1`, `isAuthenticated = true` and the profile, and
so does its persisted slice. -/
theorem unauthorized_leaves_session_store :
    (fetchProfile Scenario.browser Scenario.session
        (.rejected Scenario.unauthorized)).browser = { localStorage := [], href := "/login" } ∧
      (fetchProfile Scenario.browser Scenario.session
        (.rejected Scenario.unauthorized)).state = Scenario.session ∧
      partialize (fetchProfile Scenario.browser Scenario.session
        (.rejected Scenario.unauthorized)).state =
        { token := some "t1", userId := some "u1", isAuthenticated := true } ∧
      (updateProfile Scenario.browser Scenario.session [("fname", "Ada")]
        (.rejected Scenario.unauthorized)).browser = { localStorage := [], href := "/login" } ∧
      (updateProfile Scenario.browser Scenario.session [("fname", "Ada")]
        (.rejected Scenario.unauthorized)).state =
        { Scenario.session with error := some "Unauthorized" } ∧
      partialize (updateProfile Scenario.browser Scenario.session [("fname", "Ada")]
        (.rejected Scenario.unauthorized)).state =
        { token := some "t1", userId := some "u1", isAuthenticated := true } := by
  decide

end Login

/-! ## The request handler -/

section RequestHandler

/-- C11: for every request configuration and every `localStorage`, when a non-empty token is
stored the request handler returns the configuration with header `Authorization` equal to
`Bearer ` followed by that token, the method, the url, the body and every other header as
they were; when no token is stored (or an empty one) it returns the configuration
unchanged. -/
theorem requestInterceptor_sets_bearer (config : Request) (ls : Storage) :
    (∀ token : String, truthyStr (ls.getItem "token") = some token →
        Storage.getItem (requestInterceptor config ls).headers "Authorization" =
          some ("Bearer " ++ token) ∧
        (requestInterceptor config ls).method = config.method ∧
        (requestInterceptor config ls).url = config.url ∧
        (requestInterceptor config ls).data = config.data ∧
        ∀ key : String, key ≠ "Authorization" →
          Storage.getItem (requestInterceptor config ls).headers key =
            Storage.getItem config.headers key) ∧
      (truthyStr (ls.getItem "token") = none → requestInterceptor config ls = config) := by
  refine ⟨?_, ?_⟩
  · intro token h
    have hr : requestInterceptor config ls =
        { config with
          headers := ("Authorization", "Bearer " ++ token) ::
            Storage.removeItem config.headers "Authorization" } := by
      simp only [requestInterceptor, h, Storage.removeItem]
    rw [hr]
    refine ⟨by simp [Storage.getItem], rfl, rfl, rfl, ?_⟩
    intro key hkey
    have hne : ¬ "Authorization" = key := fun e => hkey e.symm
    simp only [Storage.getItem, hne, if_false]
    exact Storage.getItem_removeItem_ne config.headers "Authorization" key hkey
  · intro h
    simp only [requestInterceptor, h]

/-- C11 on the profile request of user `u1`, with token `t1` stored and with nothing
stored. -/
theorem requestInterceptor_sets_bearer_witness :
    truthyStr (Scenario.browser.localStorage.getItem "token") = some "t1" ∧
      Storage.getItem (requestInterceptor (authAPI.getProfile "u1")
        Scenario.browser.localStorage).headers "Authorization" = some ("Bearer " ++ "t1") ∧
      requestInterceptor (authAPI.getProfile "u1") Scenario.anonymous.localStorage =
        authAPI.getProfile "u1" :=
  ⟨by decide,
    ((requestInterceptor_sets_bearer (authAPI.getProfile "u1")
      Scenario.browser.localStorage).1 "t1" (by decide)).1,
    (requestInterceptor_sets_bearer (authAPI.getProfile "u1")
      Scenario.anonymous.localStorage).2 (by decide)⟩

end RequestHandler

/-! ## Failure paths of the session store -/

section SessionFailure

open useAuthStore

theorem orElse_newError (message : Option String) (fallback : String) :
    errorText (newError message) fallback = orElse message fallback := by
  cases message with
  | none => simp [errorText, newError, JsError.dataMessage, orElse, truthyStr]
  | some m =>
    by_cases h : m = ""
    · simp [errorText, newError, JsError.dataMessage, orElse, truthyStr, h]
    · simp [errorText, newError, JsError.dataMessage, orElse, truthyStr, h]

/-- C12: a login whose request is rejected resolves to `{success: false, error: m}` with
`m = error.response?.data?.message || error.message || "Login failed"`, and a login answered
with status false resolves to `{success: false, error: m}` with
`m = response.message || "Login failed"`; in both cases the store has `error = m` and
`isLoading = false`, and only the login request was issued. -/
theorem login_failure_resolves (w : Browser) (s : AuthState) (credentials : Credentials)
    (oProfile : Outcome Profile) :
    (∀ error : JsError,
        (login w s credentials (.rejected error) oProfile).result =
          some { success := false, data := none,
                 error := some (errorText error "Login failed") } ∧
        (login w s credentials (.rejected error) oProfile).state.error =
          some (errorText error "Login failed") ∧
        (login w s credentials (.rejected error) oProfile).state.isLoading = false ∧
        (login w s credentials (.rejected error) oProfile).requests =
          [requestInterceptor (authAPI.login credentials) w.localStorage]) ∧
      (∀ (data : Option LoginData) (message : Option String),
        (login w s credentials
          (.resolved { status := false, data := data, message := message }) oProfile).result =
          some { success := false, data := none,
                 error := some (orElse message "Login failed") } ∧
        (login w s credentials
          (.resolved { status := false, data := data, message := message })
          oProfile).state.error = some (orElse message "Login failed") ∧
        (login w s credentials
          (.resolved { status := false, data := data, message := message })
          oProfile).state.isLoading = false ∧
        (login w s credentials
          (.resolved { status := false, data := data, message := message })
          oProfile).requests = [requestInterceptor (authAPI.login credentials) w.localStorage]) := by
  refine ⟨?_, ?_⟩
  · intro error
    simp [login, caught, Result.fail, apiCall]
  · intro data message
    simp [login, caught, Result.fail, apiCall, orElse_newError]

theorem responseInterceptor_unauthorized (error : JsError) (w : Browser)
    (h : error.response.map (fun r => r.status) = some 401) :
    (responseInterceptor error w).1 =
      { localStorage := (w.localStorage.removeItem "token").removeItem "userId",
        href := "/login" } := by
  simp only [responseInterceptor, h, if_true]

theorem responseInterceptor_other (error : JsError) (w : Browser)
    (h : error.response.map (fun r => r.status) ≠ some 401) :
    (responseInterceptor error w).1 = w := by
  simp only [responseInterceptor, h, if_false]

theorem Storage.evicted_token (ls : Storage) :
    Storage.getItem ((Storage.removeItem ls "token").removeItem "userId") "token" = none := by
  rw [Storage.getItem_removeItem_ne _ "userId" "token" (by decide)]
  exact Storage.getItem_removeItem_self _ _

theorem Storage.evicted_userId (ls : Storage) :
    Storage.getItem ((Storage.removeItem ls "token").removeItem "userId") "userId" = none :=
  Storage.getItem_removeItem_self _ _

theorem apiCall_browser {α : Type} (w : Browser) (config : Request) (o : Outcome α)
    (h : ∀ e, o = .rejected e → e.response.map (fun r => r.status) ≠ some 401) :
    (apiCall w config o).1 = w := by
  cases o with
  | resolved body => rfl
  | rejected e => exact responseInterceptor_other e w (h e rfl)

theorem useAuthStore.fetchProfile_browser (w : Browser) (s : AuthState) (o : Outcome Profile)
    (h : ∀ e, o = .rejected e → e.response.map (fun r => r.status) ≠ some 401) :
    (fetchProfile w s o).browser = w := by
  unfold fetchProfile
  cases truthyStr (jsOr s.userId (w.localStorage.getItem "userId")) with
  | none => rfl
  | some userId =>
    have hb := apiCall_browser w (authAPI.getProfile userId) o h
    obtain ⟨status, data, message⟩ | error := o
    · cases status <;> exact hb
    · exact hb

theorem useAuthStore.fetchProfile_browser_unauthorized (w : Browser) (s : AuthState)
    (error : JsError) (userId : String)
    (hid : truthyStr (jsOr s.userId (w.localStorage.getItem "userId")) = some userId)
    (h : error.response.map (fun r => r.status) = some 401) :
    (fetchProfile w s (.rejected error)).browser =
      { localStorage := (w.localStorage.removeItem "token").removeItem "userId",
        href := "/login" } := by
  simp only [fetchProfile, hid, apiCall]
  exact responseInterceptor_unauthorized error w h

/-- C13, as stated, fails: a login answered `{status: true, data: {userId: "u2", token: "t2"}}`
whose chained profile fetch is rejected with status 401 returns `{success: true}`, yet
`localStorage` holds neither a token nor a user id afterwards. -/
theorem login_profile_unauthorized_evicts :
    (login Scenario.browser initial Scenario.credentials Scenario.loginOk
        (.rejected Scenario.unauthorized)).result = some Result.ok ∧
      (login Scenario.browser initial Scenario.credentials Scenario.loginOk
        (.rejected Scenario.unauthorized)).browser.localStorage.getItem "token" = none ∧
      (login Scenario.browser initial Scenario.credentials Scenario.loginOk
        (.rejected Scenario.unauthorized)).browser.localStorage.getItem "userId" = none := by
  decide

/-- C13, amended: for every login answered `{status: true, data: {userId: u, token: t}}` and
every outcome of the chained profile fetch, login returns `{success: true}`; unless the
profile fetch is rejected with status 401, the store has `token = t`, `userId = u` and
`isAuthenticated = true` and `localStorage` holds token `t` and user id `u` afterwards; when
the profile fetch (issued for a non-empty `u`) is rejected with status 401, `localStorage`
holds neither afterwards. -/
theorem login_success_survives_profile_failure (w : Browser) (s : AuthState)
    (credentials : Credentials) (u t : String) (message : Option String)
    (oProfile : Outcome Profile) :
    (login w s credentials
        (.resolved { status := true, data := some { userId := some u, token := some t },
                     message := message }) oProfile).result = some Result.ok ∧
      ((∀ e, oProfile = .rejected e → e.response.map (fun r => r.status) ≠ some 401) →
        (login w s credentials
          (.resolved { status := true, data := some { userId := some u, token := some t },
                       message := message }) oProfile).state.token = some t ∧
        (login w s credentials
          (.resolved { status := true, data := some { userId := some u, token := some t },
                       message := message }) oProfile).state.userId = some u ∧
        (login w s credentials
          (.resolved { status := true, data := some { userId := some u, token := some t },
                       message := message }) oProfile).state.isAuthenticated = true ∧
        (login w s credentials
          (.resolved { status := true, data := some { userId := some u, token := some t },
                       message := message }) oProfile).browser.localStorage.getItem "token"
          = some t ∧
        (login w s credentials
          (.resolved { status := true, data := some { userId := some u, token := some t },
                       message := message }) oProfile).browser.localStorage.getItem "userId"
          = some u) ∧
      (u ≠ "" → ∀ e, oProfile = .rejected e → e.response.map (fun r => r.status) = some 401 →
        (login w s credentials
          (.resolved { status := true, data := some { userId := some u, token := some t },
                       message := message }) oProfile).browser.localStorage.getItem "token"
          = none ∧
        (login w s credentials
          (.resolved { status := true, data := some { userId := some u, token := some t },
                       message := message }) oProfile).browser.localStorage.getItem "userId"
          = none) := by
  have hsess := fetchProfile_session
    { w with localStorage := (w.localStorage.setItem "token" t).setItem "userId" u }
    { s with isLoading := false, error := none, token := some t, userId := some u,
             isAuthenticated := true } oProfile
  simp only [partialize, AuthSlice.mk.injEq] at hsess
  have htok : Storage.getItem ((w.localStorage.setItem "token" t).setItem "userId" u) "token"
      = some t := by
    rw [Storage.getItem_setItem_ne _ "userId" u "token" (by decide),
      Storage.getItem_setItem_self]
  have huid : Storage.getItem ((w.localStorage.setItem "token" t).setItem "userId" u) "userId"
      = some u := Storage.getItem_setItem_self _ _ _
  refine ⟨by simp [login], ?_, ?_⟩
  · intro h401
    have hb := fetchProfile_browser
      { w with localStorage := (w.localStorage.setItem "token" t).setItem "userId" u }
      { s with isLoading := false, error := none, token := some t, userId := some u,
               isAuthenticated := true } oProfile h401
    refine ⟨?_, ?_, ?_, ?_, ?_⟩
    · simpa [login, jsString, apiCall] using hsess.1
    · simpa [login, jsString, apiCall] using hsess.2.1
    · simpa [login, jsString, apiCall] using hsess.2.2
    · simp only [login, jsString, apiCall]
      rw [hb]
      exact htok
    · simp only [login, jsString, apiCall]
      rw [hb]
      exact huid
  · intro hu e he h401
    subst he
    have hid : truthyStr (jsOr (some u)
        (Storage.getItem ((w.localStorage.setItem "token" t).setItem "userId" u) "userId"))
        = some u := by
      simp [jsOr, truthyStr, hu]
    have hb := fetchProfile_browser_unauthorized
      { w with localStorage := (w.localStorage.setItem "token" t).setItem "userId" u }
      { s with isLoading := false, error := none, token := some t, userId := some u,
               isAuthenticated := true } e u hid h401
    simp only [login, jsString, apiCall]
    rw [hb]
    exact ⟨Storage.evicted_token _, Storage.evicted_userId _⟩

/-- C14, as stated, fails: a `register` rejected with status 401 in a browser that holds token
`t1` and user id `u1` leaves `localStorage` without either. -/
theorem register_unauthorized_evicts :
    Scenario.browser.localStorage.getItem "token" = some "t1" ∧
      (register Scenario.browser Scenario.session [("email", "a@b.com")]
        (.rejected Scenario.unauthorized)).browser.localStorage.getItem "token" = none ∧
      (register Scenario.browser Scenario.session [("email", "a@b.com")]
        (.rejected Scenario.unauthorized)).browser.localStorage.getItem "userId" = none := by
  decide

/-- C14, amended: for every prior state and every remote outcome, `register` leaves `token`,
`userId`, `isAuthenticated` and `user` of the session store as they were; unless the request
is rejected with status 401, it leaves `localStorage` (its token and user id included) as it
was. -/
theorem register_never_authenticates (w : Browser) (s : AuthState) (formData : FormData)
    (o : Outcome Profile) :
    (register w s formData o).state.token = s.token ∧
      (register w s formData o).state.userId = s.userId ∧
      (register w s formData o).state.isAuthenticated = s.isAuthenticated ∧
      (register w s formData o).state.user = s.user ∧
      ((∀ e, o = .rejected e → e.response.map (fun r => r.status) ≠ some 401) →
        (register w s formData o).browser.localStorage.getItem "token" =
            w.localStorage.getItem "token" ∧
          (register w s formData o).browser.localStorage.getItem "userId" =
            w.localStorage.getItem "userId" ∧
          (register w s formData o).browser = w) := by
  have hb := apiCall_browser w (authAPI.register formData) o
  unfold register
  obtain ⟨status, data, message⟩ | error := o
  · cases status
    · exact ⟨rfl, rfl, rfl, rfl, fun _ => ⟨rfl, rfl, rfl⟩⟩
    · exact ⟨rfl, rfl, rfl, rfl, fun _ => ⟨rfl, rfl, rfl⟩⟩
  · refine ⟨rfl, rfl, rfl, rfl, fun h => ?_⟩
    have hw : (apiCall w (authAPI.register formData) (Outcome.rejected error : Outcome Profile)).1
        = w := hb h
    simp only [caught, hw, and_self]

/-- C13, amended, on a login whose profile fetch fails without a response. -/
theorem login_success_survives_profile_failure_witness :
    (login Scenario.anonymous initial Scenario.credentials
        (.resolved { status := true, data := some { userId := some "u2", token := some "t2" },
                     message := none })
        (.rejected { response := none, message := "Network Error" })).state.token
        = some "t2" ∧
      (login Scenario.anonymous initial Scenario.credentials
        (.resolved { status := true, data := some { userId := some "u2", token := some "t2" },
                     message := none })
        (.rejected { response := none, message := "Network Error" })).browser.localStorage.getItem
          "token" = some "t2" :=
  have h := (login_success_survives_profile_failure Scenario.anonymous initial
    Scenario.credentials "u2" "t2" none
    (.rejected { response := none, message := "Network Error" })).2.1
    (fun e he => by cases he; decide)
  ⟨h.1, h.2.2.2.1⟩

/-- C14, amended, on a registration answered with status 500 while user `u1` is logged in. -/
theorem register_never_authenticates_witness :
    (register Scenario.browser Scenario.session [("email", "a@b.com")]
        (.rejected { response := some { status := 500, message := none },
                     message := "Server Error" })).state.isAuthenticated = true ∧
      (register Scenario.browser Scenario.session [("email", "a@b.com")]
        (.rejected { response := some { status := 500, message := none },
                     message := "Server Error" })).browser = Scenario.browser :=
  have h := register_never_authenticates Scenario.browser Scenario.session
    [("email", "a@b.com")]
    (.rejected { response := some { status := 500, message := none },
                 message := "Server Error" })
  ⟨h.2.2.1, (h.2.2.2.2 (fun e he => by cases he; decide)).2.2⟩

theorem useAuthStore.fetchProfile_rejected (w : Browser) (s : AuthState) (error : JsError) :
    (fetchProfile w s (.rejected error)).state.isLoading = false ∨
      (fetchProfile w s (.rejected error)).state = s := by
  unfold fetchProfile
  cases truthyStr (jsOr s.userId (w.localStorage.getItem "userId")) with
  | none => exact Or.inr rfl
  | some userId => exact Or.inl rfl

theorem useAuthStore.fetchProfile_failure_frame (w : Browser) (s : AuthState)
    (o : Outcome Profile)
    (h : ∀ body, o = .resolved body → body.status = false) :
    (fetchProfile w s o).state.error = s.error ∧ (fetchProfile w s o).state.user = s.user := by
  unfold fetchProfile
  cases truthyStr (jsOr s.userId (w.localStorage.getItem "userId")) with
  | none => exact ⟨rfl, rfl⟩
  | some userId =>
    obtain ⟨status, data, message⟩ | error := o
    · have hs : status = false := h _ rfl
      subst hs
      exact ⟨rfl, rfl⟩
    · exact ⟨rfl, rfl⟩

/-- C15, where the code departs from it: with user `u1` known and `isLoading` false before,
a `fetchProfile` answered `{status: false, message: "User not found"}` issues its request
and leaves `error` and `user` as they were, but leaves `isLoading` true; the same call
rejected without a response leaves `isLoading` false. -/
theorem fetchProfile_refused_keeps_loading :
    Scenario.session.isLoading = false ∧
      (fetchProfile Scenario.browser Scenario.session Scenario.profileRefused).requests =
        [requestInterceptor (authAPI.getProfile "u1") Scenario.browser.localStorage] ∧
      (fetchProfile Scenario.browser Scenario.session Scenario.profileRefused).state.isLoading
        = true ∧
      (fetchProfile Scenario.browser Scenario.session Scenario.profileRefused).state.error
        = Scenario.session.error ∧
      (fetchProfile Scenario.browser Scenario.session Scenario.profileRefused).state.user
        = Scenario.session.user ∧
      (fetchProfile Scenario.browser Scenario.session
        (.rejected { response := none, message := "Network Error" })).state.isLoading
        = false := by
  decide

/-- C16: when neither the session store nor `localStorage` holds a non-empty user id,
`fetchProfile` issues no request, leaves browser and store as they were and resolves to
`undefined`, and `updateProfile` issues no request, leaves browser and store as they were
and resolves to `{success: false, error: "Not authenticated"}`; when the store holds none
but `localStorage` holds `u`, each issues exactly one request, for user `u`. -/
theorem profile_operations_need_user_id (w : Browser) (s : AuthState) (formData : FormData)
    (o : Outcome Profile) (hStore : truthyStr s.userId = none) :
    (truthyStr (w.localStorage.getItem "userId") = none →
        fetchProfile w s o = { browser := w, state := s, requests := [], result := none } ∧
        updateProfile w s formData o =
          { browser := w, state := s, requests := [],
            result := some { success := false, data := none,
                             error := some "Not authenticated" } }) ∧
      (∀ u : String, truthyStr (w.localStorage.getItem "userId") = some u →
        (fetchProfile w s o).requests =
          [requestInterceptor (authAPI.getProfile u) w.localStorage] ∧
        (updateProfile w s formData o).requests =
          [requestInterceptor (authAPI.updateProfile u formData) w.localStorage]) := by
  refine ⟨?_, ?_⟩
  · intro hStorage
    have hid : truthyStr (jsOr s.userId (w.localStorage.getItem "userId")) = none := by
      simp only [jsOr, hStore, hStorage]
    simp only [fetchProfile, updateProfile, hid, Result.fail, and_self]
  · intro u hStorage
    have hid : truthyStr (jsOr s.userId (w.localStorage.getItem "userId")) = some u := by
      simp only [jsOr, hStore, hStorage]
    simp only [fetchProfile, updateProfile, hid]
    obtain ⟨status, data, message⟩ | error := o
    · cases status <;> simp [apiCall, caught]
    · simp [apiCall_request, caught]

/-- C16 after a reload: the store is the initial one, `localStorage` still holds `u1`; and on
a browser that holds nothing. -/
theorem profile_operations_need_user_id_witness :
    truthyStr initial.userId = none ∧
      truthyStr (Scenario.browser.localStorage.getItem "userId") = some "u1" ∧
      (fetchProfile Scenario.browser initial Scenario.profileRefused).requests =
        [requestInterceptor (authAPI.getProfile "u1") Scenario.browser.localStorage] ∧
      truthyStr (Scenario.anonymous.localStorage.getItem "userId") = none ∧
      fetchProfile Scenario.anonymous initial Scenario.profileRefused =
        { browser := Scenario.anonymous, state := initial, requests := [], result := none } :=
  ⟨by decide, by decide,
    ((profile_operations_need_user_id Scenario.browser initial [] Scenario.profileRefused
      (by decide)).2 "u1" (by decide)).1,
    by decide,
    ((profile_operations_need_user_id Scenario.anonymous initial [] Scenario.profileRefused
      (by decide)).1 (by decide)).1⟩

/-- C17, as stated, fails: `logout` on a store whose `isLoading` is true leaves `isLoading`
true, so the store is not the one of process start. -/
theorem logout_keeps_isLoading :
    (logout Scenario.browser Scenario.busySession).state.isLoading = true ∧
      (logout Scenario.browser Scenario.busySession).state ≠ initial := by
  decide

/-- C17, amended: for every prior state, `logout` issues no request, removes the token and the
user id from `localStorage` and leaves every other key alone, and sets `user`, `token` and
`userId` to absent, `isAuthenticated` to false and `error` to absent, leaving `isLoading` as
it was: the store is the one of process start exactly when `isLoading` was false. -/
theorem logout_resets_session (w : Browser) (s : AuthState) :
    (logout w s).browser.localStorage.getItem "token" = none ∧
      (logout w s).browser.localStorage.getItem "userId" = none ∧
      (∀ key : String, key ≠ "token" → key ≠ "userId" →
        (logout w s).browser.localStorage.getItem key = w.localStorage.getItem key) ∧
      (logout w s).requests = [] ∧
      (logout w s).state = { initial with isLoading := s.isLoading } ∧
      ((logout w s).state = initial ↔ s.isLoading = false) := by
  refine ⟨Storage.evicted_token _, Storage.evicted_userId _, ?_, rfl, rfl, ?_⟩
  · intro key h1 h2
    simp only [logout]
    rw [Storage.getItem_removeItem_ne _ "userId" key h2,
      Storage.getItem_removeItem_ne _ "token" key h1]
  · simp [logout, initial]

end SessionFailure

/-! ## Failure paths of the cart store, and what the operations resolve to -/

section CartFailure

open useCartStore

theorem useCartStore.fetchCart_rejected (w : Browser) (s : CartState) (error : JsError)
    (hUser : (truthyStr (w.localStorage.getItem "userId")).isSome = true)
    (hStatus : error.response.map (fun r => r.status) ≠ some 404) :
    (fetchCart w s (.rejected error)).state.error =
        some (orElse error.dataMessage "Failed to fetch cart") ∧
      (fetchCart w s (.rejected error)).state.isLoading = false := by
  obtain ⟨userId, hu⟩ := Option.isSome_iff_exists.mp hUser
  simp [fetchCart, hu, hStatus]

/-- C18, where the code departs from it: with user `u1` known, a `fetchCart` answered
`{status: false, message: "Cart unavailable"}` issues its request and completes with
`error` absent (and `isLoading` still true), although the store held an error before; the
same call rejected with status 500 completes with `error` set. -/
theorem fetchCart_refused_sets_no_error :
    (fetchCart Scenario.browser { Scenario.cartStore with error := some "old" }
        Scenario.cartRefused).requests =
        [requestInterceptor (cartAPI.get "u1") Scenario.browser.localStorage] ∧
      (fetchCart Scenario.browser { Scenario.cartStore with error := some "old" }
        Scenario.cartRefused).state.error = none ∧
      (fetchCart Scenario.browser { Scenario.cartStore with error := some "old" }
        Scenario.cartRefused).state.isLoading = true ∧
      (fetchCart Scenario.browser { Scenario.cartStore with error := some "old" }
        (.rejected { response := some { status := 500, message := none },
                     message := "Server Error" })).state.error
        = some "Failed to fetch cart" := by
  decide

/-- C19: with a known user id, after a `clearCart` whose request resolves, whatever the body
of the response (its status included), the store has no cart, no items, zero totals,
`isLoading` false and no error; the call resolves to `{success: true}` after exactly one
`DELETE` request. -/
theorem clearCart_success_empties (w : Browser) (s : CartState) (body : Envelope Unit)
    (hUser : (truthyStr (w.localStorage.getItem "userId")).isSome = true) :
    (clearCart w s (.resolved body)).state.cart = none ∧
      (clearCart w s (.resolved body)).state.items = [] ∧
      (clearCart w s (.resolved body)).state.totalPrice = 0 ∧
      (clearCart w s (.resolved body)).state.totalItems = 0 ∧
      (clearCart w s (.resolved body)).state.isLoading = false ∧
      (clearCart w s (.resolved body)).state.error = none ∧
      (clearCart w s (.resolved body)).result = some Result.ok ∧
      (clearCart w s (.resolved body)).requests.map (fun r => r.method) = [Method.DELETE] := by
  obtain ⟨userId, hu⟩ := Option.isSome_iff_exists.mp hUser
  simp [clearCart, hu, apiCall, requestInterceptor, cartAPI.clear]
  split <;> rfl

/-- C19 on the cart of user `u1`, the remote answering `{status: false}`. -/
theorem clearCart_success_empties_witness :
    (truthyStr (Scenario.browser.localStorage.getItem "userId")).isSome = true ∧
      (clearCart Scenario.browser { Scenario.cartStore with error := some "old" }
        (.resolved { status := false, data := none, message := none })).state.items = [] ∧
      (clearCart Scenario.browser { Scenario.cartStore with error := some "old" }
        (.resolved { status := false, data := none, message := none })).state.error = none :=
  have h := clearCart_success_empties Scenario.browser
    { Scenario.cartStore with error := some "old" }
    { status := false, data := none, message := none } (by decide)
  ⟨by decide, h.2.1, h.2.2.2.2.2.1⟩

theorem useAuthStore.login_result (w : Browser) (s : AuthState) (credentials : Credentials)
    (o : Outcome LoginData) (oProfile : Outcome Profile) :
    (useAuthStore.login w s credentials o oProfile).result.isSome = true := by
  unfold useAuthStore.login
  obtain ⟨status, data, message⟩ | error := o
  · cases status <;> cases data <;> simp [useAuthStore.caught]
  · simp [useAuthStore.caught]

theorem useAuthStore.register_result (w : Browser) (s : AuthState) (formData : FormData)
    (o : Outcome Profile) :
    (useAuthStore.register w s formData o).result.isSome = true := by
  unfold useAuthStore.register
  obtain ⟨status, data, message⟩ | error := o
  · cases status <;> simp [useAuthStore.caught]
  · simp [useAuthStore.caught]

theorem useAuthStore.updateProfile_result (w : Browser) (s : AuthState) (formData : FormData)
    (o : Outcome Profile) :
    (useAuthStore.updateProfile w s formData o).result.isSome = true := by
  unfold useAuthStore.updateProfile
  cases truthyStr (jsOr s.userId (w.localStorage.getItem "userId")) with
  | none => rfl
  | some userId =>
    obtain ⟨status, data, message⟩ | error := o
    · cases status <;> simp [useAuthStore.caught]
    · simp [useAuthStore.caught]

theorem useCartStore.addItem_result (w : Browser) (s : CartState) (productId : String)
    (quantity : Option Int) (o : Outcome CartData) :
    (addItem w s productId quantity o).result.isSome = true := by
  unfold addItem
  cases truthyStr (w.localStorage.getItem "userId") with
  | none => rfl
  | some userId =>
    obtain ⟨status, data, message⟩ | error := o
    · cases status <;> cases data <;> simp [useCartStore.caught]
    · simp [useCartStore.caught]

theorem useCartStore.updateItem_result (w : Browser) (s : CartState) (productId : String)
    (removeProduct : JsFlag) (o : Outcome CartData) :
    (updateItem w s productId removeProduct o).result.isSome = true := by
  unfold updateItem
  cases truthyStr (w.localStorage.getItem "userId") with
  | none => rfl
  | some userId =>
    cases truthyStr s.cartId with
    | none => rfl
    | some cartId =>
      obtain ⟨status, data, message⟩ | error := o
      · cases status <;> cases data <;> simp [useCartStore.caught]
      · simp [useCartStore.caught]

/-- C20, as stated, fails: with user `u1` known, a `fetchCart` answered with a cart resolves
to `undefined`, and so does a `clearCart` in a browser that holds no user id. -/
theorem fetchCart_resolves_undefined :
    (fetchCart Scenario.browser Scenario.cartStore (success Scenario.emptied none)).result
        = none ∧
      (fetchCart Scenario.browser Scenario.cartStore (success Scenario.emptied none)).state.items
        = [] ∧
      (clearCart Scenario.anonymous Scenario.cartStore
        (.resolved { status := true, data := none, message := none })).result = none := by
  decide

/-- C20, amended: on every path (missing user id or cart id, success, response with status
false, rejected request) `login`, `register`, `updateProfile`, `addItem`, `updateItem`,
`removeItem` and `decreaseQuantity` resolve to a result object, which carries the boolean
`success`, and so does `clearCart` when a user id is known; `fetchCart`, like
`fetchProfile`, resolves to `undefined` on every path. -/
theorem operations_resolve_to_results (w : Browser) (a : AuthState) (c : CartState)
    (credentials : Credentials) (formData : FormData) (productId : String)
    (quantity : Option Int) (removeProduct : JsFlag) (oLogin : Outcome LoginData)
    (oProfile : Outcome Profile) (oCart : Outcome CartData) (oClear : Outcome Unit) :
    (useAuthStore.login w a credentials oLogin oProfile).result.isSome = true ∧
      (useAuthStore.register w a formData oProfile).result.isSome = true ∧
      (useAuthStore.updateProfile w a formData oProfile).result.isSome = true ∧
      (addItem w c productId quantity oCart).result.isSome = true ∧
      (updateItem w c productId removeProduct oCart).result.isSome = true ∧
      (removeItem w c productId oCart).result.isSome = true ∧
      (decreaseQuantity w c productId oCart).result.isSome = true ∧
      ((truthyStr (w.localStorage.getItem "userId")).isSome = true →
        (clearCart w c oClear).result.isSome = true) ∧
      (fetchCart w c oCart).result = none ∧
      (useAuthStore.fetchProfile w a oProfile).result = none := by
  refine ⟨useAuthStore.login_result w a credentials oLogin oProfile,
    useAuthStore.register_result w a formData oProfile,
    useAuthStore.updateProfile_result w a formData oProfile,
    addItem_result w c productId quantity oCart,
    updateItem_result w c productId removeProduct oCart,
    updateItem_result w c productId (.num 0) oCart,
    updateItem_result w c productId (.num 1) oCart, ?_, ?_, ?_⟩
  · intro hUser
    obtain ⟨userId, hu⟩ := Option.isSome_iff_exists.mp hUser
    cases oClear <;> simp [clearCart, hu]
  · unfold fetchCart
    cases truthyStr (w.localStorage.getItem "userId") with
    | none => rfl
    | some userId =>
      obtain ⟨status, data, message⟩ | error := oCart
      · cases status
        · rfl
        · cases data
          · simp only []
            split <;> rfl
          · rfl
      · simp only []
        split <;> rfl
  · unfold useAuthStore.fetchProfile
    cases truthyStr (jsOr a.userId (w.localStorage.getItem "userId")) with
    | none => rfl
    | some userId =>
      obtain ⟨status, data, message⟩ | error := oProfile
      · cases status <;> rfl
      · rfl

/-- C20, amended, on a `clearCart` of user `u1` rejected with status 500. -/
theorem operations_resolve_to_results_witness :
    (truthyStr (Scenario.browser.localStorage.getItem "userId")).isSome = true ∧
      (clearCart Scenario.browser Scenario.cartStore
        (.rejected { response := some { status := 500, message := none },
                     message := "Server Error" })).result.isSome = true :=
  ⟨by decide,
    (operations_resolve_to_results Scenario.browser Scenario.session Scenario.cartStore
      Scenario.credentials [] "p1" none (.num 0) Scenario.loginOk Scenario.profileRefused
      Scenario.cartRefused
      (.rejected { response := some { status := 500, message := none },
                   message := "Server Error" })).2.2.2.2.2.2.2.1 (by decide)⟩

end CartFailure

/-! ## Frame properties of the cart store -/

section CartFrame

open useCartStore

theorem useCartStore.caught_frame (w : Browser) (s : CartState) (requests : List Request)
    (error : JsError) (fallback : String) :
    (useCartStore.caught w s requests error fallback).state =
      { s with error := some (errorText error fallback), isLoading := false } := rfl

theorem useCartStore.addItem_failure (w : Browser) (s : CartState) (productId : String)
    (quantity : Option Int) (o : Outcome CartData)
    (hFail : ∀ body, o = .resolved body → body.status = false) :
    (addItem w s productId quantity o).state.cart = s.cart ∧
      (addItem w s productId quantity o).state.cartId = s.cartId ∧
      (addItem w s productId quantity o).state.items = s.items ∧
      (addItem w s productId quantity o).state.totalPrice = s.totalPrice ∧
      (addItem w s productId quantity o).state.totalItems = s.totalItems := by
  unfold addItem
  cases truthyStr (w.localStorage.getItem "userId") with
  | none => exact ⟨rfl, rfl, rfl, rfl, rfl⟩
  | some userId =>
    obtain ⟨status, data, message⟩ | error := o
    · have hs : status = false := hFail _ rfl
      subst hs
      exact ⟨rfl, rfl, rfl, rfl, rfl⟩
    · exact ⟨rfl, rfl, rfl, rfl, rfl⟩

theorem useCartStore.updateItem_failure (w : Browser) (s : CartState) (productId : String)
    (removeProduct : JsFlag) (o : Outcome CartData)
    (hFail : ∀ body, o = .resolved body → body.status = false) :
    (updateItem w s productId removeProduct o).state.cart = s.cart ∧
      (updateItem w s productId removeProduct o).state.cartId = s.cartId ∧
      (updateItem w s productId removeProduct o).state.items = s.items ∧
      (updateItem w s productId removeProduct o).state.totalPrice = s.totalPrice ∧
      (updateItem w s productId removeProduct o).state.totalItems = s.totalItems := by
  unfold updateItem
  cases truthyStr (w.localStorage.getItem "userId") with
  | none => exact ⟨rfl, rfl, rfl, rfl, rfl⟩
  | some userId =>
    cases truthyStr s.cartId with
    | none => exact ⟨rfl, rfl, rfl, rfl, rfl⟩
    | some cartId =>
      obtain ⟨status, data, message⟩ | error := o
      · have hs : status = false := hFail _ rfl
        subst hs
        exact ⟨rfl, rfl, rfl, rfl, rfl⟩
      · exact ⟨rfl, rfl, rfl, rfl, rfl⟩

theorem useCartStore.clearCart_cartId (w : Browser) (s : CartState) (o : Outcome Unit) :
    (clearCart w s o).state.cartId = s.cartId := by
  unfold clearCart
  cases truthyStr (w.localStorage.getItem "userId") with
  | none => rfl
  | some userId => cases o <;> rfl

/-- C21, as stated, fails for `clearCart`: with user `u1` known, a `clearCart` answered
`{status: false}` empties `items` and the totals of a cart that held one line. -/
theorem clearCart_refused_still_empties :
    Scenario.cartStore.items = [{ productId := "p1", quantity := 2 }] ∧
      (clearCart Scenario.browser Scenario.cartStore
        (.resolved { status := false, data := none, message := some "Cart unavailable" })
        ).state.items = [] ∧
      (clearCart Scenario.browser Scenario.cartStore
        (.resolved { status := false, data := none, message := some "Cart unavailable" })
        ).state.totalPrice = 0 ∧
      (clearCart Scenario.browser Scenario.cartStore
        (.resolved { status := false, data := none, message := some "Cart unavailable" })
        ).result = some Result.ok := by
  decide

/-- C21, amended: whenever the remote call of `addItem` or `updateItem` fails (rejected
request or response with status false), and whenever the request of `clearCart` is rejected,
`cart`, `cartId`, `items`, `totalPrice` and `totalItems` after the operation equal their
values before it; `clearCart` does not read the response body, so it keeps `cartId` on every
outcome but empties the snapshot whenever its request resolves. -/
theorem failed_cart_operation_keeps_snapshot (w : Browser) (s : CartState)
    (productId : String) (quantity : Option Int) (removeProduct : JsFlag)
    (o : Outcome CartData) (error : JsError) (oClear : Outcome Unit)
    (hFail : ∀ body, o = .resolved body → body.status = false) :
    ((addItem w s productId quantity o).state.cart = s.cart ∧
        (addItem w s productId quantity o).state.cartId = s.cartId ∧
        (addItem w s productId quantity o).state.items = s.items ∧
        (addItem w s productId quantity o).state.totalPrice = s.totalPrice ∧
        (addItem w s productId quantity o).state.totalItems = s.totalItems) ∧
      ((updateItem w s productId removeProduct o).state.cart = s.cart ∧
        (updateItem w s productId removeProduct o).state.cartId = s.cartId ∧
        (updateItem w s productId removeProduct o).state.items = s.items ∧
        (updateItem w s productId removeProduct o).state.totalPrice = s.totalPrice ∧
        (updateItem w s productId removeProduct o).state.totalItems = s.totalItems) ∧
      ((clearCart w s (.rejected error)).state.cart = s.cart ∧
        (clearCart w s (.rejected error)).state.cartId = s.cartId ∧
        (clearCart w s (.rejected error)).state.items = s.items ∧
        (clearCart w s (.rejected error)).state.totalPrice = s.totalPrice ∧
        (clearCart w s (.rejected error)).state.totalItems = s.totalItems) ∧
      (clearCart w s oClear).state.cartId = s.cartId := by
  refine ⟨addItem_failure w s productId quantity o hFail,
    updateItem_failure w s productId removeProduct o hFail, ?_, clearCart_cartId w s oClear⟩
  unfold clearCart
  cases truthyStr (w.localStorage.getItem "userId") with
  | none => exact ⟨rfl, rfl, rfl, rfl, rfl⟩
  | some userId => exact ⟨rfl, rfl, rfl, rfl, rfl⟩

/-- C21, amended, on the cart of user `u1`: an `addItem` answered with status false. -/
theorem failed_cart_operation_keeps_snapshot_witness :
    (∀ body, Scenario.cartRefused = .resolved body → body.status = false) ∧
      (addItem Scenario.browser Scenario.cartStore "p2" (some 1)
        Scenario.cartRefused).state.items = Scenario.cartStore.items ∧
      (addItem Scenario.browser Scenario.cartStore "p2" (some 1)
        Scenario.cartRefused).state.error = some "Cart unavailable" :=
  have hf : ∀ body, Scenario.cartRefused = .resolved body → body.status = false := by
    intro body h
    cases h
    rfl
  ⟨hf,
    (failed_cart_operation_keeps_snapshot Scenario.browser Scenario.cartStore "p2" (some 1)
      (.num 1) Scenario.cartRefused Scenario.unauthorized
      (.rejected Scenario.unauthorized) hf).1.2.2.1,
    by decide⟩

/-- C22: with user id `u` known, `addItem` always issues exactly one request,
`POST /users/u/cart`, whatever the store holds; its body is `{productId, quantity}` with
`quantity` 1 when omitted, carrying `cartId: c` exactly when the store has the non-empty
cached cart id `c` and no `cartId` field otherwise. -/
theorem addItem_request_body (w : Browser) (s : CartState) (productId : String)
    (quantity : Option Int) (o : Outcome CartData) (u : String)
    (hUser : truthyStr (w.localStorage.getItem "userId") = some u) :
    (addItem w s productId quantity o).requests =
        [requestInterceptor
          { method := .POST, url := "/users/" ++ u ++ "/cart",
            data := .addItem productId (quantity.getD 1) (truthyStr s.cartId),
            headers := jsonHeaders } w.localStorage] ∧
      (∀ c : String, s.cartId = some c → c ≠ "" → truthyStr s.cartId = some c) ∧
      (s.cartId = none ∨ s.cartId = some "" → truthyStr s.cartId = none) ∧
      (addItem w s productId none o).requests =
        [requestInterceptor
          { method := .POST, url := "/users/" ++ u ++ "/cart",
            data := .addItem productId 1 (truthyStr s.cartId),
            headers := jsonHeaders } w.localStorage] := by
  have hreq : ∀ q : Option Int, (addItem w s productId q o).requests =
      [requestInterceptor
        { method := .POST, url := "/users/" ++ u ++ "/cart",
          data := .addItem productId (q.getD 1) (truthyStr s.cartId),
          headers := jsonHeaders } w.localStorage] := by
    intro q
    unfold addItem
    obtain ⟨status, data, message⟩ | error := o
    · cases status <;> cases data <;>
        simp [hUser, useCartStore.caught, apiCall, cartAPI.addItem]
    · simp [hUser, useCartStore.caught, apiCall_request, cartAPI.addItem]
  refine ⟨hreq quantity, ?_, ?_, hreq none⟩
  · intro c hc hne
    rw [hc]
    exact truthyStr_some_of_ne c hne
  · intro h
    rcases h with h | h <;> rw [h] <;> rfl

/-- C22 for user `u1`: `addItem("p1")` on the empty store, and on a store that caches cart
`c1`. -/
theorem addItem_request_body_witness :
    truthyStr (Scenario.browser.localStorage.getItem "userId") = some "u1" ∧
      (addItem Scenario.browser useCartStore.initial "p1" none
        (success Scenario.emptied none)).requests =
        [{ method := .POST, url := "/users/u1/cart", data := .addItem "p1" 1 none,
           headers := [("Authorization", "Bearer t1"), ("Content-Type", "application/json")] }] ∧
      (addItem Scenario.browser Scenario.cartStore "p1" (some 3)
        (success Scenario.emptied none)).requests =
        [{ method := .POST, url := "/users/u1/cart", data := .addItem "p1" 3 (some "c1"),
           headers := [("Authorization", "Bearer t1"), ("Content-Type", "application/json")] }] :=
  ⟨by decide,
    ((addItem_request_body Scenario.browser useCartStore.initial "p1" none
      (success Scenario.emptied none) "u1" (by decide)).1.trans (by decide)),
    ((addItem_request_body Scenario.browser Scenario.cartStore "p1" (some 3)
      (success Scenario.emptied none) "u1" (by decide)).1.trans (by decide))⟩

/-- C23: when the cart store has no cached cart id (none, or the empty string), `updateItem`
issues no request, leaves browser and store exactly as they were and resolves to
`{success: false, error: "Cart not found"}`, whatever `localStorage` holds. -/
theorem updateItem_needs_cartId (w : Browser) (s : CartState) (productId : String)
    (removeProduct : JsFlag) (o : Outcome CartData) (hCart : truthyStr s.cartId = none) :
    updateItem w s productId removeProduct o =
      { browser := w, state := s, requests := [],
        result := some { success := false, data := none, error := some "Cart not found" } } := by
  unfold updateItem
  cases truthyStr (w.localStorage.getItem "userId") with
  | none => rfl
  | some userId => simp only [hCart, Result.fail]

/-- C23 for user `u1` on the empty cart store. -/
theorem updateItem_needs_cartId_witness :
    truthyStr useCartStore.initial.cartId = none ∧
      (updateItem Scenario.browser useCartStore.initial "p1" (.num 1)
        (success Scenario.emptied none)).requests = [] ∧
      (updateItem Scenario.browser useCartStore.initial "p1" (.num 1)
        (success Scenario.emptied none)).state = useCartStore.initial :=
  have h := updateItem_needs_cartId Scenario.browser useCartStore.initial "p1" (.num 1)
    (success Scenario.emptied none) (by decide)
  ⟨by decide, by rw [h], by rw [h]⟩

/-- C25: the persisted slice of the session store consists of `token`, `userId` and
`isAuthenticated`, each with the value the state has, and does not depend on `user`,
`isLoading` or `error`; the persisted slice of the cart store consists of `cartId` with the
value the state has, and does not depend on any other field. -/
theorem partialize_slices (a : AuthState) (c : CartState) :
    useAuthStore.partialize a =
        { token := a.token, userId := a.userId, isAuthenticated := a.isAuthenticated } ∧
      (∀ (user : Option Profile) (isLoading : Bool) (error : Option String),
        useAuthStore.partialize { a with user := user, isLoading := isLoading, error := error }
          = useAuthStore.partialize a) ∧
      useCartStore.partialize c = { cartId := c.cartId } ∧
      (∀ (cart : Option CartData) (items : List LineItem) (totalPrice totalItems : Int)
          (isLoading : Bool) (error : Option String),
        useCartStore.partialize
            { c with cart := cart, items := items, totalPrice := totalPrice,
                     totalItems := totalItems, isLoading := isLoading, error := error }
          = useCartStore.partialize c) :=
  ⟨rfl, fun _ _ _ => rfl, rfl, fun _ _ _ _ _ _ => rfl⟩

theorem useCartStore.addItem_requests (w : Browser) (s : CartState) (productId : String)
    (quantity : Option Int) (o : Outcome CartData) (u : String)
    (hUser : truthyStr (w.localStorage.getItem "userId") = some u) :
    (addItem w s productId quantity o).requests =
      [requestInterceptor
        { method := .POST, url := "/users/" ++ u ++ "/cart",
          data := .addItem productId (quantity.getD 1) (truthyStr s.cartId),
          headers := jsonHeaders } w.localStorage] := by
  unfold addItem
  obtain ⟨status, data, message⟩ | error := o
  · cases status <;> cases data <;>
      simp [hUser, useCartStore.caught, apiCall, cartAPI.addItem]
  · simp [hUser, useCartStore.caught, apiCall_request, cartAPI.addItem]

theorem useCartStore.updateItem_requests (w : Browser) (s : CartState) (productId : String)
    (removeProduct : JsFlag) (o : Outcome CartData) (u c : String)
    (hUser : truthyStr (w.localStorage.getItem "userId") = some u)
    (hCart : truthyStr s.cartId = some c) :
    (updateItem w s productId removeProduct o).requests =
      [requestInterceptor
        { method := .PUT, url := "/users/" ++ u ++ "/cart",
          data := .updateItem c productId removeProduct, headers := jsonHeaders }
        w.localStorage] := by
  unfold updateItem
  obtain ⟨status, data, message⟩ | error := o
  · cases status <;> cases data <;>
      simp [hUser, hCart, useCartStore.caught, apiCall, cartAPI.updateItem]
  · simp [hUser, hCart, useCartStore.caught, apiCall_request, cartAPI.updateItem]

theorem useCartStore.clearCart_resolved (w : Browser) (s : CartState) (body : Envelope Unit)
    (hUser : (truthyStr (w.localStorage.getItem "userId")).isSome = true) :
    (clearCart w s (.resolved body)).browser = w ∧
      (clearCart w s (.resolved body)).state =
        { s with cart := none, items := [], totalPrice := 0, totalItems := 0,
                 isLoading := false, error := none } := by
  obtain ⟨userId, hu⟩ := Option.isSome_iff_exists.mp hUser
  simp [clearCart, hu, apiCall]

theorem useCartStore.updateItem_cartId (w : Browser) (s : CartState) (productId : String)
    (removeProduct : JsFlag) (o : Outcome CartData) :
    (updateItem w s productId removeProduct o).state.cartId = s.cartId := by
  unfold updateItem
  cases truthyStr (w.localStorage.getItem "userId") with
  | none => rfl
  | some userId =>
    cases truthyStr s.cartId with
    | none => rfl
    | some cartId =>
      obtain ⟨status, data, message⟩ | error := o
      · cases status <;> cases data <;> rfl
      · rfl

theorem useCartStore.fetchCart_cartId (w : Browser) (s : CartState) (o : Outcome CartData) :
    (fetchCart w s o).state.cartId = s.cartId ∨
      (∃ error, o = .rejected error ∧ error.response.map (fun r => r.status) = some 404) ∨
      (∃ cart message, o = success cart message ∧
        (fetchCart w s o).state.cartId = cart._id) := by
  unfold fetchCart
  cases truthyStr (w.localStorage.getItem "userId") with
  | none => exact Or.inl rfl
  | some userId =>
    obtain ⟨status, data, message⟩ | error := o
    · cases status
      · exact Or.inl rfl
      · cases data with
        | none =>
          left
          simp only []
          split <;> rfl
        | some cart => exact Or.inr (Or.inr ⟨cart, message, rfl, rfl⟩)
    · by_cases h : error.response.map (fun r => r.status) = some 404
      · exact Or.inr (Or.inl ⟨error, rfl, h⟩)
      · left
        simp only [h, if_false]

theorem useCartStore.addItem_cartId (w : Browser) (s : CartState) (productId : String)
    (quantity : Option Int) (o : Outcome CartData) :
    (addItem w s productId quantity o).state.cartId = s.cartId ∨
      (∃ cart message, o = success cart message ∧
        (addItem w s productId quantity o).state.cartId = cart._id) := by
  unfold addItem
  cases truthyStr (w.localStorage.getItem "userId") with
  | none => exact Or.inl rfl
  | some userId =>
    obtain ⟨status, data, message⟩ | error := o
    · cases status
      · exact Or.inl rfl
      · cases data with
        | none => exact Or.inl rfl
        | some cart => exact Or.inr ⟨cart, message, rfl, rfl⟩
    · exact Or.inl rfl

/-- C30, as stated, fails in its last clause: with user `u1` known and cart id `c1` cached, an
`addItem` and a `fetchCart` answered `{status: true, data: cart}` by a cart that carries no
`_id` leave the store without a cart id, although neither is `resetCart` nor a not-found
`fetchCart`; the `addItem` returns `{success: true}`. -/
theorem success_without_id_drops_cartId :
    Scenario.cartStore.cartId = some "c1" ∧
      (addItem Scenario.browser Scenario.cartStore "p2" none
        (success Scenario.unidentified none)).result = some Result.ok ∧
      (addItem Scenario.browser Scenario.cartStore "p2" none
        (success Scenario.unidentified none)).state.cartId = none ∧
      (fetchCart Scenario.browser Scenario.cartStore
        (success Scenario.unidentified none)).state.cartId = none := by
  decide

/-- C30, amended: with user id `u` known and the non-empty cart id `c` cached, a `clearCart`
whose request resolves leaves `cartId = c`; an `addItem` right after it sends `cartId: c` in
its body and an `updateItem` right after it issues its request for cart `c` instead of
failing on the guard. `clearCart`, `updateItem` and `clearError` keep `cartId` on every
outcome; `fetchCart` and `addItem` keep it or, on a success, replace it by the `_id` of the
response cart; `resetCart` drops it; `addItem` drops it exactly when it is answered with a
cart that carries no `_id`, and `fetchCart` exactly on a 404 or when it is answered with a
cart that carries no `_id`. -/
theorem clearCart_keeps_cartId (w : Browser) (s : CartState) (u c : String)
    (body : Envelope Unit) (productId : String) (quantity : Option Int)
    (removeProduct : JsFlag) (o : Outcome CartData) (oClear : Outcome Unit)
    (hUser : truthyStr (w.localStorage.getItem "userId") = some u)
    (hCart : s.cartId = some c) (hc : c ≠ "") :
    (clearCart w s (.resolved body)).state.cartId = some c ∧
      (addItem (clearCart w s (.resolved body)).browser (clearCart w s (.resolved body)).state
          productId quantity o).requests =
        [requestInterceptor
          { method := .POST, url := "/users/" ++ u ++ "/cart",
            data := .addItem productId (quantity.getD 1) (some c), headers := jsonHeaders }
          w.localStorage] ∧
      (updateItem (clearCart w s (.resolved body)).browser
          (clearCart w s (.resolved body)).state productId removeProduct o).requests =
        [requestInterceptor
          { method := .PUT, url := "/users/" ++ u ++ "/cart",
            data := .updateItem c productId removeProduct, headers := jsonHeaders }
          w.localStorage] ∧
      (clearCart w s oClear).state.cartId = some c ∧
      (updateItem w s productId removeProduct o).state.cartId = some c ∧
      (useCartStore.clearError w s).state.cartId = some c ∧
      ((addItem w s productId quantity o).state.cartId = some c ∨
        ∃ cart message, o = success cart message ∧
          (addItem w s productId quantity o).state.cartId = cart._id) ∧
      ((fetchCart w s o).state.cartId = some c ∨
        (∃ error, o = .rejected error ∧ error.response.map (fun r => r.status) = some 404) ∨
        ∃ cart message, o = success cart message ∧
          (fetchCart w s o).state.cartId = cart._id) ∧
      (∀ error : JsError, error.response.map (fun r => r.status) = some 404 →
        (fetchCart w s (.rejected error)).state.cartId = none) ∧
      (resetCart w s).state.cartId = none ∧
      ((addItem w s productId quantity o).state.cartId = none ↔
        ∃ cart message, o = success cart message ∧ cart._id = none) ∧
      ((fetchCart w s o).state.cartId = none ↔
        (∃ error, o = .rejected error ∧ error.response.map (fun r => r.status) = some 404) ∨
          ∃ cart message, o = success cart message ∧ cart._id = none) := by
  have hSome : (truthyStr (w.localStorage.getItem "userId")).isSome = true := by
    rw [hUser]; rfl
  have hclear := clearCart_resolved w s body hSome
  have hcid : truthyStr s.cartId = some c := by
    rw [hCart]; exact truthyStr_some_of_ne c hc
  have hkept : s.cartId ≠ none := by
    rw [hCart]; exact Option.some_ne_none c
  refine ⟨?_, ?_, ?_, ?_, ?_, ?_, ?_, ?_, ?_, rfl, ⟨?_, ?_⟩, ⟨?_, ?_⟩⟩
  rotate_left 9
  · intro hn
    rcases addItem_cartId w s productId quantity o with h | ⟨cart, message, ho, hid⟩
    · exact absurd (h.symm.trans hn) hkept
    · exact ⟨cart, message, ho, hid.symm.trans hn⟩
  · rintro ⟨cart, message, rfl, hid⟩
    rw [(addItem_success w s productId quantity cart message hSome).1]
    exact hid
  · intro hn
    rcases fetchCart_cartId w s o with h | h | ⟨cart, message, ho, hid⟩
    · exact absurd (h.symm.trans hn) hkept
    · exact Or.inl h
    · exact Or.inr ⟨cart, message, ho, hid.symm.trans hn⟩
  · rintro (⟨error, rfl, h404⟩ | ⟨cart, message, rfl, hid⟩)
    · simp [fetchCart, hUser, h404]
    · simp [fetchCart, hUser, success, apiCall, hid]
  · rw [clearCart_cartId]; exact hCart
  · rw [hclear.1, hclear.2, addItem_requests w _ productId quantity o u hUser]
    simp only [hcid]
  · rw [hclear.1, hclear.2]
    exact updateItem_requests w _ productId removeProduct o u c hUser hcid
  · rw [clearCart_cartId]; exact hCart
  · rw [updateItem_cartId]; exact hCart
  · exact hCart
  · rw [← hCart]; exact addItem_cartId w s productId quantity o
  · rw [← hCart]; exact fetchCart_cartId w s o
  · intro error h404
    simp [fetchCart, hUser, h404]

/-- C30 for user `u1` and cart `c1`: `clearCart`, then `addItem("p2")`. -/
theorem clearCart_keeps_cartId_witness :
    truthyStr (Scenario.browser.localStorage.getItem "userId") = some "u1" ∧
      Scenario.cartStore.cartId = some "c1" ∧ ("c1" : String) ≠ "" ∧
      (clearCart Scenario.browser Scenario.cartStore
        (.resolved { status := true, data := none, message := none })).state.cartId
        = some "c1" ∧
      (addItem
          (clearCart Scenario.browser Scenario.cartStore
            (.resolved { status := true, data := none, message := none })).browser
          (clearCart Scenario.browser Scenario.cartStore
            (.resolved { status := true, data := none, message := none })).state
          "p2" none Scenario.cartRefused).requests =
        [requestInterceptor
          { method := .POST, url := "/users/" ++ "u1" ++ "/cart",
            data := .addItem "p2" ((none : Option Int).getD 1) (some "c1"),
            headers := jsonHeaders }
          Scenario.browser.localStorage] :=
  have h := clearCart_keeps_cartId Scenario.browser Scenario.cartStore "u1" "c1"
    { status := true, data := none, message := none } "p2" none (.num 1) Scenario.cartRefused
    (.rejected Scenario.unauthorized) (by decide) (by decide) (by decide)
  ⟨by decide, by decide, by decide, h.1, h.2.1⟩

theorem useAuthStore.register_loading (w : Browser) (s : AuthState) (formData : FormData)
    (o : Outcome Profile) :
    (useAuthStore.register w s formData o).state.isLoading = false := by
  unfold useAuthStore.register
  obtain ⟨status, data, message⟩ | error := o
  · cases status <;> rfl
  · rfl

theorem useAuthStore.updateProfile_loading (w : Browser) (s : AuthState) (formData : FormData)
    (o : Outcome Profile)
    (hCall : (useAuthStore.updateProfile w s formData o).requests ≠ []) :
    (useAuthStore.updateProfile w s formData o).state.isLoading = false := by
  unfold useAuthStore.updateProfile at hCall ⊢
  cases h : truthyStr (jsOr s.userId (w.localStorage.getItem "userId")) with
  | none => simp [h] at hCall
  | some userId =>
    obtain ⟨status, data, message⟩ | error := o
    · cases status <;> rfl
    · rfl

theorem useCartStore.mutations_loading (w : Browser) (s : CartState) (productId : String)
    (quantity : Option Int) (removeProduct : JsFlag) (o : Outcome CartData)
    (oClear : Outcome Unit) :
    ((addItem w s productId quantity o).requests ≠ [] →
        (addItem w s productId quantity o).state.isLoading = false) ∧
      ((updateItem w s productId removeProduct o).requests ≠ [] →
        (updateItem w s productId removeProduct o).state.isLoading = false) ∧
      ((clearCart w s oClear).requests ≠ [] →
        (clearCart w s oClear).state.isLoading = false) := by
  refine ⟨?_, ?_, ?_⟩
  · unfold addItem
    cases truthyStr (w.localStorage.getItem "userId") with
    | none => intro h; exact absurd rfl h
    | some userId =>
      intro _
      obtain ⟨status, data, message⟩ | error := o
      · cases status <;> cases data <;> rfl
      · rfl
  · unfold updateItem
    cases truthyStr (w.localStorage.getItem "userId") with
    | none => intro h; exact absurd rfl h
    | some userId =>
      cases truthyStr s.cartId with
      | none => intro h; exact absurd rfl h
      | some cartId =>
        intro _
        obtain ⟨status, data, message⟩ | error := o
        · cases status <;> cases data <;> rfl
        · rfl
  · unfold clearCart
    cases truthyStr (w.localStorage.getItem "userId") with
    | none => intro h; exact absurd rfl h
    | some userId =>
      intro _
      cases oClear <;> rfl

/-- C29, where the code departs from it: three operations that resolve with `isLoading`
still true. A `fetchProfile` of the stored user `u1` answered with status false; a
`fetchCart` of user `u1` answered with status false; and a `login` answered
`{status: true, data: {userId: "u2", token: "t2"}}` whose chained profile fetch is answered
with status false, although the login itself returns `{success: true}`. -/
theorem loading_flag_stuck :
    (useAuthStore.fetchProfile Scenario.browser useAuthStore.initial
        Scenario.profileRefused).state.isLoading = true ∧
      (fetchCart Scenario.browser useCartStore.initial Scenario.cartRefused).state.isLoading
        = true ∧
      (useAuthStore.login Scenario.anonymous useAuthStore.initial Scenario.credentials
        Scenario.loginOk Scenario.profileRefused).result = some Result.ok ∧
      (useAuthStore.login Scenario.anonymous useAuthStore.initial Scenario.credentials
        Scenario.loginOk Scenario.profileRefused).state.isLoading = true := by
  decide

end CartFrame

/-! ## Profile and authentication; the logout of the navigation bar -/

section SessionGuarded

open useAuthStore

theorem responseInterceptor_userId (error : JsError) (w : Browser)
    (h : truthyStr (w.localStorage.getItem "userId") = none) :
    truthyStr ((responseInterceptor error w).1.localStorage.getItem "userId") = none := by
  unfold responseInterceptor
  split
  · simp only [Storage.evicted_userId]
    rfl
  · exact h

theorem apiCall_userId {α : Type} (w : Browser) (config : Request) (o : Outcome α)
    (h : truthyStr (w.localStorage.getItem "userId") = none) :
    truthyStr ((apiCall w config o).1.localStorage.getItem "userId") = none := by
  cases o with
  | resolved body => exact h
  | rejected e => exact responseInterceptor_userId e w h

theorem useAuthStore.fetchProfile_settled (w : Browser) (s : AuthState) (o : Outcome Profile)
    (userId : String)
    (hid : truthyStr (jsOr s.userId (w.localStorage.getItem "userId")) = some userId) :
    (fetchProfile w s o).state = fetchProfileSettled { s with isLoading := true } o := by
  simp only [fetchProfile, hid, fetchProfileSettled]
  obtain ⟨status, data, message⟩ | error := o
  · cases status <;> rfl
  · rfl

theorem SessionGuard.of_frame {w w2 : Browser} {s t : AuthState} (h : SessionGuard w s)
    (hp : partialize t = partialize s) (hu : t.user = s.user)
    (hw : truthyStr (w.localStorage.getItem "userId") = none →
      truthyStr (w2.localStorage.getItem "userId") = none) : SessionGuard w2 t := by
  simp only [partialize, AuthSlice.mk.injEq] at hp
  obtain ⟨-, h2, h3⟩ := hp
  intro hA
  rw [h3] at hA
  obtain ⟨g1, g2, g3⟩ := h hA
  exact ⟨by rw [h2]; exact g1, hw g2, by rw [hu]; exact g3⟩

theorem SessionGuard.of_authenticated {w : Browser} {t : AuthState}
    (h : t.isAuthenticated = true) : SessionGuard w t := by
  intro hA
  rw [h] at hA
  exact absurd hA (by decide)

theorem useAuthStore.no_user_id {w : Browser} {s : AuthState} (h : SessionGuard w s)
    (hA : s.isAuthenticated = false) :
    truthyStr (jsOr s.userId (w.localStorage.getItem "userId")) = none := by
  obtain ⟨g1, g2, -⟩ := h hA
  simp only [jsOr, g1, g2]

theorem AuthAction.run_guard (w : Browser) (s : AuthState) (a : AuthAction)
    (h : SessionGuard w s) : SessionGuard (a.run w s).browser (a.run w s).state := by
  cases a with
  | login credentials o oProfile =>
    obtain ⟨status, data, message⟩ | error := o
    · cases status with
      | false => exact h.of_frame rfl rfl (fun g => g)
      | true =>
        cases data with
        | none => exact h.of_frame rfl rfl (fun g => g)
        | some d =>
          apply SessionGuard.of_authenticated
          have hp := fetchProfile_session
            { w with
              localStorage :=
                Storage.setItem (Storage.setItem w.localStorage "token" (jsString d.token))
                  "userId" (jsString d.userId) }
            { s with isLoading := false, error := none, token := d.token, userId := d.userId,
                     isAuthenticated := true } oProfile
          simp only [partialize, AuthSlice.mk.injEq] at hp
          simpa [AuthAction.run, login, apiCall] using hp.2.2
    · exact h.of_frame rfl rfl (responseInterceptor_userId error w)
  | register formData o =>
    obtain ⟨status, data, message⟩ | error := o
    · cases status
      · exact h.of_frame rfl rfl (fun g => g)
      · exact h.of_frame rfl rfl (fun g => g)
    · exact h.of_frame rfl rfl (responseInterceptor_userId error w)
  | fetchProfile o =>
    cases hA : s.isAuthenticated with
    | true =>
      apply SessionGuard.of_authenticated
      have hp := fetchProfile_session w s o
      simp only [partialize, AuthSlice.mk.injEq] at hp
      exact hp.2.2.trans hA
    | false =>
      have hid := no_user_id h hA
      have e : useAuthStore.fetchProfile w s o =
          { browser := w, state := s, requests := [], result := none } := by
        simp only [useAuthStore.fetchProfile, hid]
      show SessionGuard (useAuthStore.fetchProfile w s o).browser
        (useAuthStore.fetchProfile w s o).state
      rw [e]
      exact h
  | updateProfile formData o =>
    cases hA : s.isAuthenticated with
    | true =>
      apply SessionGuard.of_authenticated
      have hp := updateProfile_session w s formData o
      simp only [partialize, AuthSlice.mk.injEq] at hp
      exact hp.2.2.trans hA
    | false =>
      have hid := no_user_id h hA
      have e : useAuthStore.updateProfile w s formData o =
          { browser := w, state := s, requests := [],
            result := some (Result.fail "Not authenticated") } := by
        simp only [useAuthStore.updateProfile, hid]
      show SessionGuard (useAuthStore.updateProfile w s formData o).browser
        (useAuthStore.updateProfile w s formData o).state
      rw [e]
      exact h
  | logout =>
    intro _
    exact ⟨rfl, by
      simp only [AuthAction.run, useAuthStore.logout, Storage.evicted_userId]
      rfl, rfl⟩
  | clearError => exact h.of_frame rfl rfl (fun g => g)

theorem runAuth_guard (actions : List AuthAction) (w : Browser) (s : AuthState)
    (h : SessionGuard w s) :
    SessionGuard (runAuth w s actions).1 (runAuth w s actions).2 := by
  induction actions generalizing w s with
  | nil => exact h
  | cons a rest ih => exact ih _ _ (AuthAction.run_guard w s a h)

/-- C24, as stated, fails twice. Started on the empty store in a browser whose `localStorage`
still holds user id `u1`, a `fetchProfile` answered with a profile leaves that profile in a
store that is not authenticated. And when a `fetchProfile` is in flight while `logout` runs,
the store update made once the call settles puts the profile into the logged-out store. -/
theorem profile_held_while_unauthenticated :
    (runAuth { localStorage := [("userId", "u1")], href := "/" } initial
        [.fetchProfile (.resolved { status := true, data := some Scenario.profile,
                                    message := none })]).2.user = some Scenario.profile ∧
      (runAuth { localStorage := [("userId", "u1")], href := "/" } initial
        [.fetchProfile (.resolved { status := true, data := some Scenario.profile,
                                    message := none })]).2.isAuthenticated = false ∧
      (logout Scenario.browser Scenario.busySession).state = Scenario.loggedOutBusy ∧
      (fetchProfileSettled Scenario.loggedOutBusy
        (.resolved { status := true, data := some Scenario.profile,
                     message := none })).user = some Scenario.profile ∧
      (fetchProfileSettled Scenario.loggedOutBusy
        (.resolved { status := true, data := some Scenario.profile,
                     message := none })).isAuthenticated = false := by
  decide

/-- C24, amended: started on the empty store in a browser whose `localStorage` holds no
(non-empty) user id, after any sequence of `login`, `register`, `fetchProfile`,
`updateProfile`, `logout` and `clearError`, each run to completion before the next starts
and whatever the remote answers, the store holds a profile only if `isAuthenticated` is
true. -/
theorem user_only_if_authenticated (w : Browser) (actions : List AuthAction)
    (hStorage : truthyStr (w.localStorage.getItem "userId") = none) :
    (runAuth w initial actions).2.user.isSome = true →
      (runAuth w initial actions).2.isAuthenticated = true := by
  have h0 : SessionGuard w initial := fun _ => ⟨rfl, hStorage, rfl⟩
  have h := runAuth_guard actions w initial h0
  intro hu
  cases hA : (runAuth w initial actions).2.isAuthenticated with
  | true => rfl
  | false =>
    rw [(h hA).2.2] at hu
    exact absurd hu (by decide)

/-- C24, amended, on a login answered with credentials and a profile, and on the same
followed by a logout. -/
theorem user_only_if_authenticated_witness :
    truthyStr (Scenario.anonymous.localStorage.getItem "userId") = none ∧
      (runAuth Scenario.anonymous initial
        [.login Scenario.credentials Scenario.loginOk
          (.resolved { status := true, data := some Scenario.profile, message := none })]
        ).2.user.isSome = true ∧
      (runAuth Scenario.anonymous initial
        [.login Scenario.credentials Scenario.loginOk
          (.resolved { status := true, data := some Scenario.profile, message := none })]
        ).2.isAuthenticated = true :=
  ⟨by decide, by decide,
    user_only_if_authenticated Scenario.anonymous
      [.login Scenario.credentials Scenario.loginOk
        (.resolved { status := true, data := some Scenario.profile, message := none })]
      (by decide) (by decide)⟩

/-- C26: for every browser, session store and cart store, after `handleLogout` of the
navigation bar the session has `isAuthenticated` false and `token`, `userId` and `user`
absent, `localStorage` holds neither a token nor a user id, and the cart store has `cart`
and `cartId` absent, no items, zero totals and no error. -/
theorem handleLogout_resets_both_stores (w : Browser) (auth : AuthState) (cart : CartState) :
    (Navbar.handleLogout w auth cart).auth.isAuthenticated = false ∧
      (Navbar.handleLogout w auth cart).auth.token = none ∧
      (Navbar.handleLogout w auth cart).auth.userId = none ∧
      (Navbar.handleLogout w auth cart).auth.user = none ∧
      (Navbar.handleLogout w auth cart).browser.localStorage.getItem "token" = none ∧
      (Navbar.handleLogout w auth cart).browser.localStorage.getItem "userId" = none ∧
      (Navbar.handleLogout w auth cart).cart.cart = none ∧
      (Navbar.handleLogout w auth cart).cart.cartId = none ∧
      (Navbar.handleLogout w auth cart).cart.items = [] ∧
      (Navbar.handleLogout w auth cart).cart.totalPrice = 0 ∧
      (Navbar.handleLogout w auth cart).cart.totalItems = 0 ∧
      (Navbar.handleLogout w auth cart).cart.error = none ∧
      useCartStore.partialize (Navbar.handleLogout w auth cart).cart = { cartId := none } :=
  ⟨rfl, rfl, rfl, rfl, Storage.evicted_token _, Storage.evicted_userId _, rfl, rfl, rfl, rfl,
    rfl, rfl, rfl⟩

end SessionGuarded

/-! ## Validation before the store is called -/

section Validation

theorem errorIf_eq_nil (bad : Bool) (field message : String) :
    errorIf bad field message = [] ↔ bad = false := by
  cases bad <;> simp [errorIf]

theorem passwordRegex_spec (p : String) (h : passwordRegex p = true) :
    8 ≤ utf16Length p.toList ∧ utf16Length p.toList ≤ 15 ∧
      (∃ c ∈ p.toList, isUpper c = true) ∧ (∃ c ∈ p.toList, isLower c = true) ∧
      (∃ c ∈ p.toList, isDigit c = true) ∧ (∃ c ∈ p.toList, isSpecial c = true) := by
  simp only [passwordRegex, Bool.and_eq_true, List.any_eq_true, decide_eq_true_eq] at h
  obtain ⟨⟨⟨⟨⟨⟨h1, h2⟩, h3⟩, h4⟩, -⟩, h6⟩, h7⟩ := h
  exact ⟨h6, h7, h1, h2, h3, h4⟩

theorem pincodeRegex_spec (p : String) (h : pincodeRegex p = true) :
    p.toList.length = 6 ∧ ∀ c ∈ p.toList, isDigit c = true := by
  unfold pincodeRegex at h
  have hd : p.toList = p.data := rfl
  rw [hd] at h ⊢
  cases hp : p.data with
  | nil => simp [hp] at h
  | cons c rest =>
    simp only [hp, Bool.and_eq_true, decide_eq_true_eq, beq_iff_eq, List.all_eq_true] at h
    obtain ⟨⟨⟨h1, h2⟩, h3⟩, h4⟩ := h
    refine ⟨by simp [h3], ?_⟩
    intro d hd
    rcases List.mem_cons.mp hd with rfl | hd
    · simp only [isDigit, Bool.and_eq_true, decide_eq_true_eq]
      omega
    · exact h4 d hd

theorem RegisterPage.register_form_valid (formData : RegisterForm)
    (profileImage : Option String)
    (h : RegisterPage.validateForm formData profileImage = []) :
    (isBlank formData.fname = false ∧ nameRegex formData.fname = true) ∧
      (isBlank formData.lname = false ∧ nameRegex formData.lname = true) ∧
      (formData.email ≠ "" ∧ emailRegex formData.email = true) ∧
      (formData.phone ≠ "" ∧ phoneRegex formData.phone = true) ∧
      (formData.password ≠ "" ∧ passwordRegex formData.password = true) ∧
      formData.confirmPassword = formData.password ∧
      isBlank formData.street = false ∧
      (isBlank formData.city = false ∧ nameRegex formData.city = true) ∧
      (formData.pincode ≠ "" ∧ pincodeRegex formData.pincode = true) ∧
      profileImage.isSome = true := by
  simp only [RegisterPage.validateForm, List.append_eq_nil] at h
  obtain ⟨⟨⟨⟨⟨⟨⟨⟨⟨h1, h2⟩, h3⟩, h4⟩, h5⟩, h6⟩, h7⟩, h8⟩, h9⟩, h10⟩ := h
  refine ⟨?_, ?_, ?_, ?_, ?_, ?_, ?_, ?_, ?_, ?_⟩
  · split at h1
    · exact absurd h1 (by simp)
    · rename_i hb
      exact ⟨by simpa using hb, by simpa using (errorIf_eq_nil _ _ _).mp h1⟩
  · split at h2
    · exact absurd h2 (by simp)
    · rename_i hb
      exact ⟨by simpa using hb, by simpa using (errorIf_eq_nil _ _ _).mp h2⟩
  · split at h3
    · exact absurd h3 (by simp)
    · rename_i hb
      exact ⟨hb, by simpa using (errorIf_eq_nil _ _ _).mp h3⟩
  · split at h4
    · exact absurd h4 (by simp)
    · rename_i hb
      exact ⟨hb, by simpa using (errorIf_eq_nil _ _ _).mp h4⟩
  · split at h5
    · exact absurd h5 (by simp)
    · rename_i hb
      exact ⟨hb, by simpa using (errorIf_eq_nil _ _ _).mp h5⟩
  · have := (errorIf_eq_nil _ _ _).mp h6
    simp only [decide_eq_false_iff_not, ne_eq, not_not] at this
    exact this.symm
  · exact (errorIf_eq_nil _ _ _).mp h7
  · split at h8
    · exact absurd h8 (by simp)
    · rename_i hb
      exact ⟨by simpa using hb, by simpa using (errorIf_eq_nil _ _ _).mp h8⟩
  · split at h9
    · exact absurd h9 (by simp)
    · rename_i hb
      exact ⟨hb, by simpa using (errorIf_eq_nil _ _ _).mp h9⟩
  · have := (errorIf_eq_nil _ _ _).mp h10
    cases profileImage with
    | none => simp at this
    | some f => rfl

theorem LoginPage.login_form_valid (formData : Credentials)
    (h : LoginPage.validateForm formData = []) :
    formData.email ≠ "" ∧ emailRegex formData.email = true ∧ formData.password ≠ "" := by
  simp only [LoginPage.validateForm, List.append_eq_nil] at h
  obtain ⟨h1, h2⟩ := h
  have hp := (errorIf_eq_nil _ _ _).mp h2
  simp only [decide_eq_false_iff_not] at hp
  split at h1
  · exact absurd h1 (by simp)
  · rename_i hb
    exact ⟨hb, by simpa using (errorIf_eq_nil _ _ _).mp h1, hp⟩

theorem RegisterPage.register_submit_calls (json : String → String → String → String)
    (w : Browser) (s : AuthState) (formData : RegisterForm) (profileImage : Option String)
    (o : Outcome Profile) :
    (RegisterPage.validateForm formData profileImage = [] →
        (RegisterPage.handleSubmit json w s formData profileImage o).calls =
          [.register (RegisterPage.submitData json formData profileImage)]) ∧
      (RegisterPage.validateForm formData profileImage ≠ [] →
        (RegisterPage.handleSubmit json w s formData profileImage o).calls = [] ∧
        (RegisterPage.handleSubmit json w s formData profileImage o).step =
          { browser := w, state := s, requests := [], result := none }) := by
  refine ⟨?_, ?_⟩
  · intro h
    simp only [RegisterPage.handleSubmit, h, ne_eq, not_true_eq_false, if_false]
    split
    · rfl
    · split <;> rfl
  · intro h
    simp only [RegisterPage.handleSubmit, h, ne_eq, not_false_eq_true, if_true,
      PageStep.stopped, and_self]

theorem LoginPage.login_submit_calls (w : Browser) (s : AuthState) (formData : Credentials)
    (origin : Option String) (o : Outcome LoginData) (oProfile : Outcome Profile) :
    (LoginPage.validateForm formData = [] →
        (LoginPage.handleSubmit w s formData origin o oProfile).calls = [.login formData]) ∧
      (LoginPage.validateForm formData ≠ [] →
        (LoginPage.handleSubmit w s formData origin o oProfile).calls = [] ∧
        (LoginPage.handleSubmit w s formData origin o oProfile).step =
          { browser := w, state := s, requests := [], result := none }) := by
  refine ⟨?_, ?_⟩
  · intro h
    simp only [LoginPage.handleSubmit, h, ne_eq, not_true_eq_false, if_false]
    split
    · rfl
    · split <;> rfl
  · intro h
    simp only [LoginPage.handleSubmit, h, ne_eq, not_false_eq_true, if_true,
      PageStep.stopped, and_self]

/-- C27: the submit handler of the registration page calls the store's `register` only if
`validateForm` wrote no error, and then first and last name are not blank and match the name
pattern, email and phone match their patterns, the password has 8 to 15 code units with an
uppercase letter, a lowercase letter, a digit and a special character, `confirmPassword`
equals it, the street is not blank, the city is not blank and matches the name pattern, the
pincode is six digits matching its pattern, and an image is chosen; when `validateForm`
wrote an error the handler makes no call and no request and leaves browser and store alone.
Likewise the submit handler of the login page calls `login` only if the email is not empty
and matches the email pattern and the password is not empty. -/
theorem submit_only_after_validation (json : String → String → String → String)
    (w : Browser) (s : AuthState) (formData : RegisterForm) (profileImage : Option String)
    (o : Outcome Profile) (credentials : Credentials) (origin : Option String)
    (oLogin : Outcome LoginData) :
    ((RegisterPage.handleSubmit json w s formData profileImage o).calls ≠ [] →
        RegisterPage.validateForm formData profileImage = [] ∧
        (isBlank formData.fname = false ∧ nameRegex formData.fname = true) ∧
        (isBlank formData.lname = false ∧ nameRegex formData.lname = true) ∧
        (formData.email ≠ "" ∧ emailRegex formData.email = true) ∧
        (formData.phone ≠ "" ∧ phoneRegex formData.phone = true) ∧
        (passwordRegex formData.password = true ∧
          8 ≤ utf16Length formData.password.toList ∧
          utf16Length formData.password.toList ≤ 15 ∧
          (∃ c ∈ formData.password.toList, isUpper c = true) ∧
          (∃ c ∈ formData.password.toList, isLower c = true) ∧
          (∃ c ∈ formData.password.toList, isDigit c = true) ∧
          (∃ c ∈ formData.password.toList, isSpecial c = true)) ∧
        formData.confirmPassword = formData.password ∧
        isBlank formData.street = false ∧
        (isBlank formData.city = false ∧ nameRegex formData.city = true) ∧
        (pincodeRegex formData.pincode = true ∧ formData.pincode.toList.length = 6 ∧
          ∀ c ∈ formData.pincode.toList, isDigit c = true) ∧
        profileImage.isSome = true ∧
        (RegisterPage.handleSubmit json w s formData profileImage o).calls =
          [.register (RegisterPage.submitData json formData profileImage)]) ∧
      (RegisterPage.validateForm formData profileImage ≠ [] →
        (RegisterPage.handleSubmit json w s formData profileImage o).calls = [] ∧
        (RegisterPage.handleSubmit json w s formData profileImage o).step =
          { browser := w, state := s, requests := [], result := none }) ∧
      ((LoginPage.handleSubmit w s credentials origin oLogin o).calls ≠ [] →
        LoginPage.validateForm credentials = [] ∧ credentials.email ≠ "" ∧
        emailRegex credentials.email = true ∧ credentials.password ≠ "" ∧
        (LoginPage.handleSubmit w s credentials origin oLogin o).calls =
          [.login credentials]) ∧
      (LoginPage.validateForm credentials ≠ [] →
        (LoginPage.handleSubmit w s credentials origin oLogin o).calls = [] ∧
        (LoginPage.handleSubmit w s credentials origin oLogin o).step =
          { browser := w, state := s, requests := [], result := none }) := by
  have hr := RegisterPage.register_submit_calls json w s formData profileImage o
  have hl := LoginPage.login_submit_calls w s credentials origin oLogin o
  refine ⟨?_, hr.2, ?_, hl.2⟩
  · intro hc
    have hv : RegisterPage.validateForm formData profileImage = [] := by
      by_contra hne
      exact hc (hr.2 hne).1
    obtain ⟨h1, h2, h3, h4, h5, h6, h7, h8, h9, h10⟩ :=
      RegisterPage.register_form_valid formData profileImage hv
    have hp := passwordRegex_spec formData.password h5.2
    have hpin := pincodeRegex_spec formData.pincode h9.2
    exact ⟨hv, h1, h2, h3, h4, ⟨h5.2, hp⟩, h6, h7, h8, ⟨h9.2, hpin⟩, h10, hr.1 hv⟩
  · intro hc
    have hv : LoginPage.validateForm credentials = [] := by
      by_contra hne
      exact hc (hl.2 hne).1
    obtain ⟨h1, h2, h3⟩ := LoginPage.login_form_valid credentials hv
    exact ⟨hv, h1, h2, h3, hl.1 hv⟩

/-- C27 on a registration form that passes, on the same form without an image, and on a
login form with a malformed email. -/
theorem submit_only_after_validation_witness :
    (RegisterPage.handleSubmit Scenario.json Scenario.anonymous useAuthStore.initial
        Scenario.registerForm (some "ada.png") Scenario.profileRefused).calls ≠ [] ∧
      RegisterPage.validateForm Scenario.registerForm (some "ada.png") = [] ∧
      RegisterPage.validateForm Scenario.registerForm none ≠ [] ∧
      (RegisterPage.handleSubmit Scenario.json Scenario.anonymous useAuthStore.initial
        Scenario.registerForm none Scenario.profileRefused).calls = [] ∧
      LoginPage.validateForm { email := "a@b", password := "x" } ≠ [] ∧
      (LoginPage.handleSubmit Scenario.anonymous useAuthStore.initial
        { email := "a@b", password := "x" } none Scenario.loginOk
        Scenario.profileRefused).calls = [] :=
  have h := submit_only_after_validation Scenario.json Scenario.anonymous useAuthStore.initial
    Scenario.registerForm (some "ada.png") Scenario.profileRefused
    { email := "a@b", password := "x" } none Scenario.loginOk
  have h2 := submit_only_after_validation Scenario.json Scenario.anonymous
    useAuthStore.initial Scenario.registerForm none Scenario.profileRefused
    { email := "a@b", password := "x" } none Scenario.loginOk
  ⟨by decide, (h.1 (by decide)).1, by decide, (h2.2.1 (by decide)).1, by decide,
    (h.2.2.2 (by decide)).1⟩

end Validation

/-! ## The profile form -/

section ProfileForm

theorem orElse_some_empty (x : String) : orElse (some x) "" = x := by
  by_cases h : x = ""
  · simp [orElse, truthyStr, h]
  · simp [orElse, truthyStr, h]

theorem ProfilePage.submitData_unchanged (json : String → String → String → String)
    (user : Profile)
    (hFields : user.fname.isSome = true ∧ user.lname.isSome = true ∧
      user.phone.isSome = true ∧ (user.shipping.bind (fun a => a.street)).isSome = true ∧
      (user.shipping.bind (fun a => a.city)).isSome = true ∧
      (user.shipping.bind (fun a => a.pincode)).isSome = true) :
    ProfilePage.submitData json user (ProfilePage.initialFormData (some user)) none = [] := by
  obtain ⟨h1, h2, h3, h4, h5, h6⟩ := hFields
  obtain ⟨f, hf⟩ := Option.isSome_iff_exists.mp h1
  obtain ⟨l, hl⟩ := Option.isSome_iff_exists.mp h2
  obtain ⟨ph, hph⟩ := Option.isSome_iff_exists.mp h3
  obtain ⟨st, hst⟩ := Option.isSome_iff_exists.mp h4
  obtain ⟨ci, hci⟩ := Option.isSome_iff_exists.mp h5
  obtain ⟨pin, hpin⟩ := Option.isSome_iff_exists.mp h6
  simp [ProfilePage.submitData, ProfilePage.initialFormData, shippingOf, pincodeText,
    strictNe, orElse_some_empty, hf, hl, hph, hst, hci, hpin]

/-- C28, as stated, fails twice. For a profile whose phone and address are missing, the
untouched form submits `phone` and `address` in a call of `updateProfile`. For a complete
profile whose stored phone does not match the phone pattern, the untouched form makes no call
but reports `Please fix the errors in the form`. -/
theorem unchanged_form_not_always_reported :
    (ProfilePage.handleSubmit Scenario.json Scenario.browser Scenario.session
        (ProfilePage.initialFormData (some Scenario.profile)) none
        Scenario.profileRefused).calls =
        [.updateProfile [("phone", ""), ("address", Scenario.json "" "" "")]] ∧
      (ProfilePage.handleSubmit Scenario.json Scenario.browser
        { Scenario.session with user := some Scenario.landlineProfile }
        (ProfilePage.initialFormData (some Scenario.landlineProfile)) none
        Scenario.profileRefused).calls = [] ∧
      (ProfilePage.handleSubmit Scenario.json Scenario.browser
        { Scenario.session with user := some Scenario.landlineProfile }
        (ProfilePage.initialFormData (some Scenario.landlineProfile)) none
        Scenario.profileRefused).toasts = [("error", "Please fix the errors in the form")] := by
  decide

/-- C28, amended: for every profile snapshot in which first name, last name, phone and the
shipping street, city and pincode are present, the form initialised from it and submitted
untouched with no new image appends nothing to the payload; if those values pass the
validation of the form, the handler makes no store call and no request, leaves browser and
store alone and reports `No changes to save`; if they do not, it makes no store call either
and reports `Please fix the errors in the form`. -/
theorem unchanged_profile_form (json : String → String → String → String) (w : Browser)
    (s : AuthState) (user : Profile) (o : Outcome Profile) (hUser : s.user = some user)
    (hFields : user.fname.isSome = true ∧ user.lname.isSome = true ∧
      user.phone.isSome = true ∧ (user.shipping.bind (fun a => a.street)).isSome = true ∧
      (user.shipping.bind (fun a => a.city)).isSome = true ∧
      (user.shipping.bind (fun a => a.pincode)).isSome = true) :
    ProfilePage.submitData json user (ProfilePage.initialFormData (some user)) none = [] ∧
      (ProfilePage.validateForm (ProfilePage.initialFormData (some user)) = [] →
        ProfilePage.handleSubmit json w s (ProfilePage.initialFormData (some user)) none o =
          { calls := [],
            step := { browser := w, state := s, requests := [], result := none },
            toasts := [("error", "No changes to save")], navigate := none,
            errors := some [], isEditing := some false, threw := none }) ∧
      (ProfilePage.validateForm (ProfilePage.initialFormData (some user)) ≠ [] →
        (ProfilePage.handleSubmit json w s (ProfilePage.initialFormData (some user)) none
          o).calls = [] ∧
        (ProfilePage.handleSubmit json w s (ProfilePage.initialFormData (some user)) none
          o).toasts = [("error", "Please fix the errors in the form")]) := by
  have hd := ProfilePage.submitData_unchanged json user hFields
  refine ⟨hd, ?_, ?_⟩
  · intro hv
    simp only [ProfilePage.handleSubmit, hv, hUser, hd, ne_eq, not_true_eq_false, if_false,
      if_true, PageStep.stopped]
  · intro hv
    simp only [ProfilePage.handleSubmit, hv, ne_eq, not_false_eq_true, if_true,
      PageStep.stopped, and_self]

/-- C28, amended, on a complete profile that passes validation. -/
theorem unchanged_profile_form_witness :
    ({ Scenario.session with user := some Scenario.fullProfile } : AuthState).user =
        some Scenario.fullProfile ∧
      ProfilePage.validateForm (ProfilePage.initialFormData (some Scenario.fullProfile))
        = [] ∧
      (ProfilePage.handleSubmit Scenario.json Scenario.browser
        { Scenario.session with user := some Scenario.fullProfile }
        (ProfilePage.initialFormData (some Scenario.fullProfile)) none
        Scenario.profileRefused).toasts = [("error", "No changes to save")] :=
  have h := (unchanged_profile_form Scenario.json Scenario.browser
    { Scenario.session with user := some Scenario.fullProfile } Scenario.fullProfile
    Scenario.profileRefused rfl (by decide)).2.1 (by decide)
  ⟨rfl, by decide, by rw [h]⟩

end ProfileForm

end Storefront
